import Mathlib

/-!
Verification of the SEO/GEO scoring engine.

The engine consists of three scoring functions and three breakdown-ordering
functions:

  * `evaluateSeoSignals`     — the Traditional scoring component
  * `evaluateGeoSignalsBiz`  — the AI-readiness component, business vertical
  * `evaluateGeoSignalsMed`  — the AI-readiness component, medical vertical
  * `orderSeoBreakdown`, `orderBreakdownBiz`, `orderBreakdownMed`

The source pattern-matches raw HTML with JavaScript regular expressions.  Each
regular expression used by the engine is embedded below as a dedicated scanner
over `List Char`, faithful to the JS semantics of the concrete pattern
(leftmost match, greedy quantifiers with backtracking, global scan resuming
after each match, `i`-flag as ASCII case folding).  JS `Math.round` on the
non-negative quotients that occur here is modelled exactly as
round-half-up rational rounding (`jsRound`), and the floating-point `altCoverage`
ratio is modelled as an exact rational.  The wall-clock year read by the
content-freshness factor is passed in as an explicit `currentYear` argument.
-/

namespace SeoGeo

/-- JS `\s` whitespace class (the ASCII part, which is what the engine's
inputs exercise). -/
def isWs (c : Char) : Bool :=
  c == ' ' || c == '\t' || c == '\n' || c == '\r' || c == '\x0b' || c == '\x0c'

/-- JS `\w` word-character class `[A-Za-z0-9_]`. -/
def isWordChar (c : Char) : Bool := c.isAlphanum || c == '_'

/-- The character class `["']`. -/
def isQuote (c : Char) : Bool := c == '"' || c == '\''

/-- Case-insensitive character comparison (the regex `i` flag). -/
def ciEq (a b : Char) : Bool := a.toLower == b.toLower

/-- `isPref pat s`: `pat` is a prefix of `s` (case-sensitive). -/
def isPref : List Char → List Char → Bool
  | [], _ => true
  | _ :: _, [] => false
  | p :: ps, c :: cs => p == c && isPref ps cs

/-- `isPrefCI pat s`: `pat` is a prefix of `s` up to case. -/
def isPrefCI : List Char → List Char → Bool
  | [], _ => true
  | _ :: _, [] => false
  | p :: ps, c :: cs => ciEq p c && isPrefCI ps cs

/-- JS `String.includes` (case-sensitive substring test). -/
def hasSub (pat : List Char) : List Char → Bool
  | [] => isPref pat []
  | c :: cs => isPref pat (c :: cs) || hasSub pat cs

/-- Case-insensitive substring test (a `/lit/i.test(s)` with a plain literal). -/
def hasSubCI (pat : List Char) : List Char → Bool
  | [] => isPrefCI pat []
  | c :: cs => isPrefCI pat (c :: cs) || hasSubCI pat cs

/-- Skip to just after the first `>`: the regex tail `[^>]*>` (greedy
`[^>]*` cannot cross a `>`, so the match always ends at the first `>`). -/
def afterGt : List Char → Option (List Char)
  | [] => none
  | c :: cs => if c == '>' then some cs else afterGt cs

/-- Global match count of `<NAME[^>]*>` (e.g. `/<img[^>]*>/gi`): at each
position, a match starts iff the head literal occurs there and some `>`
follows; the scan resumes after the consumed `>`. -/
def countTagOpenGo (name : List Char) : Nat → List Char → Nat
  | 0, _ => 0
  | _, [] => 0
  | fuel + 1, c :: cs =>
    if isPrefCI name (c :: cs) then
      match afterGt (List.drop name.length (c :: cs)) with
      | some rest => countTagOpenGo name fuel rest + 1
      | none => countTagOpenGo name fuel cs
    else countTagOpenGo name fuel cs

/-- `html.match(/<img[^>]*>/gi)` — number of `<img` tag matches. -/
def countImgTags (s : List Char) : Nat := countTagOpenGo "<img".data (s.length + 1) s

/-- `/<NAME[^>]*>/i.test(html)` for `<ol`, `<ul`, `<table`. -/
def hasTagOpen (name : List Char) : List Char → Bool
  | [] => false
  | c :: cs =>
    (isPrefCI name (c :: cs) && (afterGt (List.drop name.length (c :: cs))).isSome)
    || hasTagOpen name cs

/-- Inner walk for `[^>]*ATTR["']VALUE["'][^>]*>` starting just after the tag
head.  The engine's greedy `[^>]*` backtracks from its longest extent, so the
successful attribute occurrence is the LAST one inside the `[^>]*` region
whose remainder completes; `VALUE` is `[^"']+` when `minOne` (the `alt`
pattern) and `[^"']*` otherwise (the `href` pattern), and since the value
class excludes both quote characters the value always runs to the next quote
(of either kind) with no further backtracking.  Returns
`(value, rest-after-the-closing >)` for the winning occurrence. -/
def attrWalk (attr : List Char) (minOne : Bool) :
    List Char → Option (List Char × List Char) → Option (List Char × List Char)
  | [], best => best
  | c :: cs, best =>
    if c == '>' then best
    else
      let cand : Option (List Char × List Char) :=
        if isPrefCI attr (c :: cs) then
          match List.drop attr.length (c :: cs) with
          | q :: u =>
            if isQuote q then
              let b := u.takeWhile (fun x => !(isQuote x))
              if minOne && b.length == 0 then none
              else
                match u.drop b.length with
                | _ :: v =>
                  match afterGt v with
                  | some rest => some (b, rest)
                  | none => none
                | [] => none
            else none
          | [] => none
        else none
      attrWalk attr minOne cs (match cand with | some x => some x | none => best)

/-- Global matches of `<HEAD[^>]*ATTR["']VALUE["'][^>]*>`; each element is
`(matched text, attribute value)`. -/
def tagAttrGo (head attr : List Char) (minOne : Bool) :
    Nat → List Char → List (List Char × List Char)
  | 0, _ => []
  | _, [] => []
  | fuel + 1, c :: cs =>
    if isPrefCI head (c :: cs) then
      match attrWalk attr minOne (List.drop head.length (c :: cs)) none with
      | some (b, rest) =>
        ((c :: cs).take ((c :: cs).length - rest.length), b) :: tagAttrGo head attr minOne fuel rest
      | none => tagAttrGo head attr minOne fuel cs
    else tagAttrGo head attr minOne fuel cs

/-- `html.match(/<a[^>]*href=["'][^"']*["'][^>]*>/gi)` together with each
match's href value. -/
def anchorMatches (s : List Char) : List (List Char × List Char) :=
  tagAttrGo "<a".data "href=".data false (s.length + 1) s

/-- `html.match(/<img[^>]*alt=["'][^"']+["'][^>]*>/gi)?.length || 0`. -/
def countImgAlt (s : List Char) : Nat :=
  (tagAttrGo "<img".data "alt=".data true (s.length + 1) s).length

/-- Source (both components):
`internalLinks.filter(link => !link.includes('http://') && !link.includes('https://')).length`
where `internalLinks` are the anchor-tag matches. -/
def internalLinkCount (s : List Char) : Nat :=
  ((anchorMatches s).filter
    (fun m => !hasSub "http://".data m.1 && !hasSub "https://".data m.1)).length

/-- Inner part of `/<meta[^>]*name=["']viewport["']/i`: look for
`name=["']viewport["']` inside the `[^>]*` region (every character of that
suffix is itself non-`>`, so it lies inside the region whenever present). -/
def nameViewportIn : List Char → Bool
  | [] => false
  | c :: cs =>
    (isPrefCI "name=".data (c :: cs) &&
      (match List.drop 5 (c :: cs) with
       | q :: rest =>
         isQuote q && isPrefCI "viewport".data rest &&
           (match List.drop 8 rest with | q2 :: _ => isQuote q2 | [] => false)
       | [] => false))
    || nameViewportIn cs

/-- `/<meta[^>]*name=["']viewport["']/i.test(html)`. -/
def hasViewportMeta : List Char → Bool
  | [] => false
  | c :: cs =>
    (isPrefCI "<meta".data (c :: cs) &&
      nameViewportIn ((List.drop 5 (c :: cs)).takeWhile (fun x => x != '>')))
    || hasViewportMeta cs

/-- Match one alternation branch given as a `\s+`-separated word list,
returning the rest of the input on success. -/
def matchWords (ci : Bool) : List (List Char) → List Char → Option (List Char)
  | [], s => some s
  | w :: ws, s =>
    if (if ci then isPrefCI w s else isPref w s) then
      let u := List.drop w.length s
      match ws with
      | [] => some u
      | _ :: _ =>
        let k := (u.takeWhile isWs).length
        if 0 < k then matchWords ci ws (u.drop k) else none
    else none

/-- The `\b` assertion after a word: end of input or a non-word character. -/
def boundaryAfter : List Char → Bool
  | [] => true
  | c :: _ => !isWordChar c

/-- `\b(alt  | alt  | ...)\b` test where every alternative starts with a word
character (true of every such pattern in the engine); backtracking tries the
alternatives in order and a trailing-boundary failure falls through to the
next alternative, which `List.any` models. -/
def wbTestGo (ci : Bool) (alts : List (List (List Char))) : Bool → List Char → Bool
  | _, [] => false
  | prevW, c :: cs =>
    (!prevW && isWordChar c &&
      alts.any (fun a =>
        match matchWords ci a (c :: cs) with
        | some rest => boundaryAfter rest
        | none => false))
    || wbTestGo ci alts (isWordChar c) cs

def wbTest (ci : Bool) (alts : List (List (List Char))) (s : List Char) : Bool :=
  wbTestGo ci alts false s

/-- The question-trigger alternation of
`/\b(what|how|why|where|when|can|should|is|are|does|do)\b[^?]{0,120}\?/gi`,
in source order (the engine tries them left to right). -/
def qWords : List (List Char) :=
  ["what".data, "how".data, "why".data, "where".data, "when".data, "can".data,
   "should".data, "is".data, "are".data, "does".data, "do".data]

/-- One attempt of the question pattern at the current position (the leading
`\b` has already been checked).  `[^?]{0,120}` cannot contain `?`, so the
greedy bounded repetition succeeds exactly when the next `?` is at most 120
characters after the trigger word. -/
def questionAt (s : List Char) : Option (List Char) :=
  qWords.findSome? (fun w =>
    if isPrefCI w s then
      let u := List.drop w.length s
      if boundaryAfter u then
        let run := u.takeWhile (fun c => c != '?')
        if run.length ≤ 120 then
          match u.drop run.length with
          | _ :: rest => some rest
          | [] => none
        else none
      else none
    else none)

def questionGo : Nat → Bool → List Char → Nat
  | 0, _, _ => 0
  | _, _, [] => 0
  | fuel + 1, prevW, c :: cs =>
    if !prevW && isWordChar c then
      match questionAt (c :: cs) with
      | some rest => questionGo fuel false rest + 1
      | none => questionGo fuel (isWordChar c) cs
    else questionGo fuel (isWordChar c) cs

/-- `html.match(/\b(what|how|...)\b[^?]{0,120}\?/gi)?.length ?? 0`. -/
def questionCountOf (s : List Char) : Nat := questionGo (s.length + 1) false s

/-- Tail of `/"@type"\s*:\s*"(N1|N2|...)"/i` after the `"@type"` literal:
`\s*:\s*"` then one of the names followed by a closing `"`. -/
def typeTailTest (names : List (List Char)) (u : List Char) : Bool :=
  match u.dropWhile isWs with
  | c :: u2 =>
    c == ':' &&
      (match u2.dropWhile isWs with
       | q :: u4 =>
         q == '"' && names.any (fun n =>
           isPrefCI n u4 &&
             (match List.drop n.length u4 with | q2 :: _ => q2 == '"' | [] => false))
       | [] => false)
  | [] => false

/-- `/"@type"\s*:\s*"(N1|N2|...)"/i.test(block)`. -/
def schemaTypeTest (names : List (List Char)) : List Char → Bool
  | [] => false
  | c :: cs =>
    (isPrefCI "\"@type\"".data (c :: cs) && typeTailTest names (List.drop 7 (c :: cs)))
    || schemaTypeTest names cs

/-- Second branch of `/faq|frequently\s+asked\s+questions/i`. -/
def freqAskedTest : List Char → Bool
  | [] => false
  | c :: cs =>
    (matchWords true ["frequently".data, "asked".data, "questions".data] (c :: cs)).isSome
    || freqAskedTest cs

/-- `/faq|frequently\s+asked\s+questions/i.test(html)`. -/
def faqHeadingTest (s : List Char) : Bool :=
  hasSubCI "faq".data s || freqAskedTest s

/-- `/\d+%|\d+\s*(W1|W2|...)/i.test(html)`: a digit immediately followed by
`%`, or a digit followed by optional whitespace and one of the words (taking
the last digit of the `\d+` run as witness). -/
def statTest (words : List (List Char)) : List Char → Bool
  | [] => false
  | c :: cs =>
    (c.isDigit &&
      ((match cs with | p :: _ => p == '%' | [] => false)
        || words.any (fun w => isPrefCI w (cs.dropWhile isWs))))
    || statTest words cs

/-- Tail of the high-quality-citation pattern after the opening quote:
`(.*?LIT1|.*?LIT2|...)["']` — a lazy `.*?` cannot cross a newline, so the
test holds iff one of the literals occurs before any newline and is
immediately followed by a quote. -/
def hqTail (lits : List (List Char)) : List Char → Bool
  | [] => false
  | c :: cs =>
    (lits.any fun w =>
      isPrefCI w (c :: cs) &&
        (match List.drop w.length (c :: cs) with | q :: _ => isQuote q | [] => false))
    || (c != '\n' && hqTail lits cs)

/-- Look for `href=["']` inside the `[^>]*` region of an `<a` tag and test the
high-quality tail there. -/
def hrefQualIn (lits : List (List Char)) : List Char → Bool
  | [] => false
  | c :: cs =>
    if c == '>' then false
    else
      (isPrefCI "href=".data (c :: cs) &&
        (match List.drop 5 (c :: cs) with
         | q :: u => isQuote q && hqTail lits u
         | [] => false))
      || hrefQualIn lits cs

/-- `/<a[^>]*href=["'](.*?LIT1|.*?LIT2|...)["']/i.test(html)`. -/
def hasHqCitations (lits : List (List Char)) : List Char → Bool
  | [] => false
  | c :: cs =>
    (isPrefCI "<a".data (c :: cs) && hrefQualIn lits (List.drop 2 (c :: cs)))
    || hasHqCitations lits cs

/-! ## Data model -/

structure ScoreBreakdown where
  factor : String
  points : Nat
  detail : String
deriving DecidableEq

structure SnapshotData where
  url : String
  title : Option String
  metaDescription : Option String
  canonicalUrl : Option String
  langAttribute : Option String
  h1Tags : List String
  h2Tags : List String
  schemaMarkup : List String
  loadTime : Nat
  statusCode : Nat
  pageSize : Nat
  wordCount : Nat
  analyzedAt : String
deriving DecidableEq

structure SeoEvaluation where
  score : Nat
  rawScore : Nat
  breakdown : List ScoreBreakdown
  hasTitle : Bool
  hasMetaDescription : Bool
  hasCanonical : Bool
  hasH1 : Bool
  hasSchema : Bool
  hasGoodContent : Bool
  hasKeywords : Bool
  hasMobileOptimization : Bool
  hasSecureProtocol : Bool
  hasXMLSitemap : Bool
  hasRobotsTxt : Bool
  hasPageSpeed : Bool
  hasImageOptimization : Bool
deriving DecidableEq

structure GeoEvaluation where
  score : Nat
  rawScore : Nat
  breakdown : List ScoreBreakdown
  hasStructuredData : Bool
  hasFaqSchema : Bool
  hasFaqContent : Bool
  questionCount : Nat
  wordCount : Nat
  loadTime : Nat
  h2Count : Nat
  hasConversationalHeaders : Bool
  hasCitations : Bool
  hasStatistics : Bool
  hasEEAT : Bool
  hasMetaOptimization : Bool
  hasImageOptimization : Bool
  hasInternalLinks : Bool
  hasContentFreshness : Bool
deriving DecidableEq

/-- `Math.round(num/den)` for the non-negative quotients of the engine:
`⌊num/den + 1/2⌋ = (2*num + den) / (2*den)` (exact rational model of the JS
float computation, which never lands on a representability boundary for
these operands). -/
def jsRound (num den : Nat) : Nat := (2 * num + den) / (2 * den)

/-! ## Traditional scoring component (`evaluateSeoSignals`)

Each scored factor of the source is translated as a block producing the
points added to `rawScore` together with the breakdown entry pushed; the
source adds the same literal to `rawScore` that it stores in the entry. -/

/-- The engine compares the float ratio `imagesWithAlt / imageCount` against
the decimal literals 0.9, 0.7, 0.5 and 0.  The embedding keeps the exact
numerator/denominator pair — the zero-image defaults `1` and `0` of the two
components encoded as `(1, 1)` and `(0, 1)` — and compares by
cross-multiplication, which agrees with the float comparison for every
operand the engine can produce.

Traditional alt coverage: `imageCount > 0 ? imagesWithAlt / imageCount : 1`. -/
def altCoverageDefault1 (html : String) : Nat × Nat :=
  if 0 < countImgTags html.data then (countImgAlt html.data, countImgTags html.data)
  else (1, 1)

/-- AI-readiness alt coverage — both variants default to 0 when there
are no images (`imageCount > 0 ? imagesWithAlt / imageCount : 0`). -/
def altCoverageDefault0 (html : String) : Nat × Nat :=
  if 0 < countImgTags html.data then (countImgAlt html.data, countImgTags html.data)
  else (0, 1)

/-- `cov ≥ p/q` for a coverage pair (the denominator is positive throughout
the engine). -/
def covGe (cov : Nat × Nat) (p q : Nat) : Bool := decide (p * cov.2 ≤ q * cov.1)

/-- `cov > p/q`. -/
def covGt (cov : Nat × Nat) (p q : Nat) : Bool := decide (p * cov.2 < q * cov.1)

def titleBlock (title : String) : Nat × ScoreBreakdown :=
  let titleLength := title.length
  if titleLength = 0 then (0, ⟨"title_tag", 0, "Missing title tag."⟩)
  else if 50 ≤ titleLength ∧ titleLength ≤ 60 then
    (15, ⟨"title_tag", 15, "Perfect title length (" ++ toString titleLength ++ " chars)."⟩)
  else if 30 ≤ titleLength ∧ titleLength < 50 then
    (10, ⟨"title_tag", 10, "Good title but short (" ++ toString titleLength ++ " chars)."⟩)
  else
    (5, ⟨"title_tag", 5, "Title needs optimization (" ++ toString titleLength ++ " chars)."⟩)

def metaBlock (metaDesc : String) : Nat × ScoreBreakdown :=
  let metaLength := metaDesc.length
  if metaLength = 0 then (0, ⟨"meta_description", 0, "Missing meta description."⟩)
  else if 150 ≤ metaLength ∧ metaLength ≤ 160 then
    (15, ⟨"meta_description", 15, "Perfect length (" ++ toString metaLength ++ " chars)."⟩)
  else if 120 ≤ metaLength then
    (12, ⟨"meta_description", 12, "Good length (" ++ toString metaLength ++ " chars)."⟩)
  else
    (5, ⟨"meta_description", 5, "Too short (" ++ toString metaLength ++ " chars)."⟩)

def headerBlock (h1Count h2Count : Nat) : Nat × ScoreBreakdown :=
  if h1Count = 1 ∧ 4 ≤ h2Count then
    (15, ⟨"header_tags", 15, "Excellent: 1 H1 + " ++ toString h2Count ++ " H2 tags."⟩)
  else if h1Count = 1 ∧ 2 ≤ h2Count then
    (10, ⟨"header_tags", 10, "Good: 1 H1 + " ++ toString h2Count ++ " H2 tags."⟩)
  else if 1 ≤ h1Count then
    (5, ⟨"header_tags", 5, "H1 present but needs more H2s."⟩)
  else (0, ⟨"header_tags", 0, "Missing H1 tag."⟩)

def contentBlock (wordCount : Nat) : Nat × ScoreBreakdown :=
  if 1500 ≤ wordCount then
    (12, ⟨"content_quality", 12, "Excellent depth (" ++ toString wordCount ++ " words)."⟩)
  else if 800 ≤ wordCount then
    (10, ⟨"content_quality", 10, "Good length (" ++ toString wordCount ++ " words)."⟩)
  else if 300 ≤ wordCount then
    (5, ⟨"content_quality", 5, "Thin content (" ++ toString wordCount ++ " words)."⟩)
  else (0, ⟨"content_quality", 0, "Very thin (" ++ toString wordCount ++ " words)."⟩)

def structuredBlock (schemaCount : Nat) : Nat × ScoreBreakdown :=
  if 2 ≤ schemaCount then
    (10, ⟨"structured_data", 10, toString schemaCount ++ " schema blocks."⟩)
  else if schemaCount = 1 then (7, ⟨"structured_data", 7, "Schema present."⟩)
  else (0, ⟨"structured_data", 0, "No schema markup."⟩)

def canonicalBlock (hasCanonical : Bool) : Nat × ScoreBreakdown :=
  if hasCanonical then (7, ⟨"canonical_tag", 7, "Canonical tag present."⟩)
  else (0, ⟨"canonical_tag", 0, "Missing canonical tag."⟩)

def linksBlock (internalLinkCount : Nat) : Nat × ScoreBreakdown :=
  if 5 ≤ internalLinkCount then
    (10, ⟨"internal_links", 10, toString internalLinkCount ++ " internal links."⟩)
  else if 3 ≤ internalLinkCount then
    (6, ⟨"internal_links", 6, toString internalLinkCount ++ " internal links."⟩)
  else (2, ⟨"internal_links", 2, "Few internal links."⟩)

def imageBlock (imagesWithAlt imageCount : Nat) (altCoverage : Nat × Nat) :
    Nat × ScoreBreakdown :=
  if covGe altCoverage 9 10 then
    (10, ⟨"image_optimization", 10,
      toString imagesWithAlt ++ "/" ++ toString imageCount ++ " with alt."⟩)
  else if covGe altCoverage 1 2 then
    (6, ⟨"image_optimization", 6,
      toString imagesWithAlt ++ "/" ++ toString imageCount ++ " with alt."⟩)
  else (2, ⟨"image_optimization", 2, "Poor alt text coverage."⟩)

def viewportBlock (hasViewport : Bool) : Nat × ScoreBreakdown :=
  if hasViewport then (7, ⟨"mobile_optimization", 7, "Viewport meta present."⟩)
  else (0, ⟨"mobile_optimization", 0, "Missing viewport."⟩)

def httpsBlock (isHTTPS : Bool) : Nat × ScoreBreakdown :=
  if isHTTPS then (5, ⟨"https_security", 5, "HTTPS enabled."⟩)
  else (0, ⟨"https_security", 0, "Not using HTTPS."⟩)

def speedBlock (loadTime : Nat) : Nat × ScoreBreakdown :=
  if loadTime ≤ 1500 then
    (7, ⟨"page_speed", 7, "Excellent (" ++ toString loadTime ++ "ms)."⟩)
  else if loadTime ≤ 3000 then
    (5, ⟨"page_speed", 5, "Good (" ++ toString loadTime ++ "ms)."⟩)
  else (2, ⟨"page_speed", 2, "Slow (" ++ toString loadTime ++ "ms)."⟩)

def langBlock (langAttribute : Option String) : Nat × ScoreBreakdown :=
  if langAttribute.getD "" ≠ "" then
    (5, ⟨"language_locale", 5, "Language: " ++ langAttribute.getD ""⟩)
  else (0, ⟨"language_locale", 0, "No language attribute."⟩)

def evaluateSeoSignals (html : String) (snapshot : SnapshotData) (url : String) : SeoEvaluation :=
  let h := html.data
  let title := snapshot.title.getD ""
  let metaDesc := snapshot.metaDescription.getD ""
  let h1Tags := snapshot.h1Tags
  let h2Tags := snapshot.h2Tags
  let schemaMarkup := snapshot.schemaMarkup
  let wordCount := snapshot.wordCount
  let loadTime := snapshot.loadTime
  let hasTitle := decide (0 < title.length)
  let hasMetaDescription := decide (0 < metaDesc.length)
  let hasCanonical := snapshot.canonicalUrl.getD "" != ""
  let hasH1 := decide (0 < h1Tags.length)
  let hasSchema := decide (0 < schemaMarkup.length)
  let hasGoodContent := decide (300 ≤ wordCount)
  let isHTTPS := url.startsWith "https://"
  let hasViewport := hasViewportMeta h
  let linkCount := internalLinkCount h
  let imageCount := countImgTags h
  let imagesWithAlt := countImgAlt h
  let altCoverage := altCoverageDefault1 html
  let b1 := titleBlock title
  let b2 := metaBlock metaDesc
  let b3 := headerBlock h1Tags.length h2Tags.length
  let b4 := contentBlock wordCount
  let b5 := structuredBlock schemaMarkup.length
  let b6 := canonicalBlock hasCanonical
  let b7 := linksBlock linkCount
  let b8 := imageBlock imagesWithAlt imageCount altCoverage
  let b9 := viewportBlock hasViewport
  let b10 := httpsBlock isHTTPS
  let b11 := speedBlock loadTime
  let b12 := langBlock snapshot.langAttribute
  let rawScore := b1.1 + b2.1 + b3.1 + b4.1 + b5.1 + b6.1 + b7.1 + b8.1 + b9.1 + b10.1 + b11.1 + b12.1
  let breakdown := [b1.2, b2.2, b3.2, b4.2, b5.2, b6.2, b7.2, b8.2, b9.2, b10.2, b11.2, b12.2]
  let normalizedScore := jsRound (rawScore * 100) 130
  let finalScore := Nat.max 0 (Nat.min 100 normalizedScore)
  { score := finalScore
    rawScore := rawScore
    breakdown := breakdown
    hasTitle := hasTitle
    hasMetaDescription := hasMetaDescription
    hasCanonical := hasCanonical
    hasH1 := hasH1
    hasSchema := hasSchema
    hasGoodContent := hasGoodContent
    hasKeywords := true
    hasMobileOptimization := hasViewport
    hasSecureProtocol := isHTTPS
    hasXMLSitemap := false
    hasRobotsTxt := false
    hasPageSpeed := decide (loadTime ≤ 3000)
    hasImageOptimization := covGe altCoverage 7 10 }

/-- Canonical Traditional factor order (source: `orderSeoBreakdown`). -/
def seoFactorOrder : List String :=
  ["title_tag", "meta_description", "header_tags", "content_quality",
   "structured_data", "canonical_tag", "internal_links", "image_optimization",
   "mobile_optimization", "https_security", "page_speed", "language_locale"]

/-- `new Map(entries.map(e => [e.factor, e])).get(name)` — the JS `Map` keeps
the LAST entry inserted for a duplicated key. -/
def lastEntry (entries : List ScoreBreakdown) (name : String) : Option ScoreBreakdown :=
  entries.foldl (fun acc e => if e.factor == name then some e else acc) none

def orderSeoBreakdown (entries : List ScoreBreakdown) : List ScoreBreakdown :=
  seoFactorOrder.filterMap (lastEntry entries)

/-- `[...h1Tags, ...h2Tags].join(' ').toLowerCase()` at the character level
(join with a single space, then ASCII case folding). -/
def joinLower (l : List String) : List Char :=
  (List.intercalate [' '] (l.map (fun s => s.data))).map Char.toLower

/-! ## AI-readiness scoring component — keyword/pattern configurations

Medical vertical (first `evaluateGeoSignals` file) and business vertical
(`geoScoring.ts`); each list transcribes one source regex alternation. -/

def convAltsMed : List (List (List Char)) :=
  [["what".data], ["how".data], ["why".data], ["when".data], ["guide".data],
   ["understanding".data]]

def convAltsBiz : List (List (List Char)) :=
  [["what".data], ["how".data], ["why".data], ["when".data], ["guide".data],
   ["understanding".data], ["best".data], ["top".data], ["tips".data],
   ["ways".data], ["steps".data]]

def citAltsMed : List (List (List Char)) :=
  [["source".data], ["reference".data], ["citation".data], ["study".data],
   ["research".data], ["fda".data], ["journal".data], ["pubmed".data],
   ["clinical".data]]

def citAltsBiz : List (List (List Char)) :=
  [["source".data], ["reference".data], ["citation".data], ["study".data],
   ["research".data], ["report".data], ["survey".data], ["data".data],
   ["according".data, "to".data], ["statistics".data]]

def hqLitsMed : List (List Char) := ["fda.gov".data, "nih.gov".data, "pubmed".data]

def hqLitsBiz : List (List Char) :=
  [".gov".data, ".edu".data, "forbes".data, "harvard".data, "mckinsey".data,
   "gartner".data, "statista".data]

/-- `patients?|participants?|response|efficacy` — the optional plural `s?`
does not affect a boolean test, so the stem literals suffice. -/
def statWordsMed : List (List Char) :=
  ["patient".data, "participant".data, "response".data, "efficacy".data]

def statWordsBiz : List (List Char) :=
  ["percent".data, "companies".data, "businesses".data, "customers".data,
   "users".data, "increase".data, "decrease".data, "growth".data]

def schemaNamesMed : List (List Char) :=
  ["Drug".data, "MedicalCondition".data, "MedicalWebPage".data]

def schemaNamesBiz : List (List Char) :=
  ["Organization".data, "LocalBusiness".data, "Service".data, "Product".data,
   "Article".data, "HowTo".data, "WebPage".data, "BreadcrumbList".data]

/-- Titles of `/\b(by|author|written\s+by)\s+(Dr\.|MD|PhD|PharmD)/i`. -/
def mdTitles : List (List Char) := ["Dr.".data, "MD".data, "PhD".data, "PharmD".data]

def bylineAltsMed : List (List (List Char)) :=
  [["by".data], ["author".data], ["written".data, "by".data]]

/-- After the byline alternation: `\s+(Dr\.|MD|PhD|PharmD)` (greedy `\s+`
consumes the whole whitespace run; the title literal must start at the first
non-whitespace character). -/
def bylineTail (s : List Char) : Bool :=
  let k := (s.takeWhile isWs).length
  decide (0 < k) && mdTitles.any (fun t => isPrefCI t (s.drop k))

def bylineMedGo : Bool → List Char → Bool
  | _, [] => false
  | prevW, c :: cs =>
    (!prevW && isWordChar c &&
      bylineAltsMed.any (fun a =>
        match matchWords true a (c :: cs) with
        | some rest => bylineTail rest
        | none => false))
    || bylineMedGo (isWordChar c) cs

/-- `/\b(by|author|written\s+by)\s+(Dr\.|MD|PhD|PharmD)/i.test(html)`. -/
def hasAuthorBylineMed (s : List Char) : Bool := bylineMedGo false s

/-- `/medically\s+reviewed\s+by/i.test(html)` (no word boundaries). -/
def medReviewTest : List Char → Bool
  | [] => false
  | c :: cs =>
    (matchWords true ["medically".data, "reviewed".data, "by".data] (c :: cs)).isSome
    || medReviewTest cs

def bylineAltsBiz : List (List (List Char)) :=
  [["by".data], ["author".data], ["written".data, "by".data], ["contributor".data]]

def credAltsBiz : List (List (List Char)) :=
  [["CEO".data], ["founder".data], ["expert".data], ["consultant".data],
   ["analyst".data], ["MBA".data], ["CPA".data], ["certified".data],
   ["professional".data], ["years".data, "of".data, "experience".data]]

def aboutAltsBiz : List (List (List Char)) :=
  [["about".data, "us".data], ["our".data, "team".data],
   ["who".data, "we".data, "are".data], ["our".data, "story".data]]

/-- `new RegExp(`\\b(Y|Y-1)\\b`).test(html)` with the current and prior
calendar year rendered in decimal. -/
def yearTest (y : Nat) (s : List Char) : Bool :=
  wbTest false [[(toString y).data], [(toString (y - 1)).data]] s

/-! ## AI-readiness scoring blocks, medical vertical -/

def convBlockMed (hasConv : Bool) (h1Count : Nat) : Nat × ScoreBreakdown :=
  if hasConv ∧ 0 < h1Count then
    (15, ⟨"conversational_headers", 15, "Conversational headers detected."⟩)
  else if 0 < h1Count then
    (5, ⟨"conversational_headers", 5, "Headers present but not conversational."⟩)
  else (0, ⟨"conversational_headers", 0, "Missing conversational structure."⟩)

def structureBlockMed (h2Count : Nat) : Nat × ScoreBreakdown :=
  if 6 ≤ h2Count then
    (10, ⟨"structure", 10, "Rich structure: " ++ toString h2Count ++ " H2 tags."⟩)
  else if 4 ≤ h2Count then
    (6, ⟨"structure", 6, "Good structure: " ++ toString h2Count ++ " H2 tags."⟩)
  else (2, ⟨"structure", 2, "Minimal structure."⟩)

def depthBlockMed (wordCount : Nat) : Nat × ScoreBreakdown :=
  if 1500 ≤ wordCount then
    (12, ⟨"content_depth", 12, "Comprehensive (" ++ toString wordCount ++ " words)."⟩)
  else if 800 ≤ wordCount then
    (8, ⟨"content_depth", 8, "Good depth (" ++ toString wordCount ++ " words)."⟩)
  else if 400 ≤ wordCount then
    (4, ⟨"content_depth", 4, "Moderate (" ++ toString wordCount ++ " words)."⟩)
  else (0, ⟨"content_depth", 0, "Thin content (" ++ toString wordCount ++ " words)."⟩)

def schemaBlockMed (hasMedicalSchema hasStructuredData : Bool) : Nat × ScoreBreakdown :=
  if hasMedicalSchema then (15, ⟨"structured_data", 15, "Medical schema present."⟩)
  else if hasStructuredData then (8, ⟨"structured_data", 8, "Schema markup present."⟩)
  else (0, ⟨"structured_data", 0, "No structured data."⟩)

def faqBlockMed (hasFaqSchema hasFaqContent : Bool) : Nat × ScoreBreakdown :=
  if hasFaqSchema then (18, ⟨"faq_schema", 18, "FAQPage schema implemented."⟩)
  else if hasFaqContent then (5, ⟨"faq_schema", 5, "FAQ content but no schema."⟩)
  else (0, ⟨"faq_schema", 0, "No FAQ content or schema."⟩)

def voiceBlockMed (questionCount : Nat) : Nat × ScoreBreakdown :=
  if 8 ≤ questionCount then
    (20, ⟨"voice_search", 20, "Excellent (" ++ toString questionCount ++ " questions)."⟩)
  else if 5 ≤ questionCount then
    (15, ⟨"voice_search", 15, "Good (" ++ toString questionCount ++ " questions)."⟩)
  else if 3 ≤ questionCount then
    (8, ⟨"voice_search", 8, "Moderate (" ++ toString questionCount ++ " questions)."⟩)
  else (2, ⟨"voice_search", 2, "Limited question content."⟩)

def authorityBlockMed (hasHq hasStats hasCit : Bool) : Nat × ScoreBreakdown :=
  if hasHq ∧ hasStats then
    (12, ⟨"authority_signals", 12, "High-quality citations + stats."⟩)
  else if hasCit then (6, ⟨"authority_signals", 6, "Citations detected."⟩)
  else (0, ⟨"authority_signals", 0, "No authority signals."⟩)

def perfBlockMed (loadTime : Nat) : Nat × ScoreBreakdown :=
  if loadTime ≤ 2000 then
    (5, ⟨"performance", 5, "Fast (" ++ toString loadTime ++ "ms)."⟩)
  else if loadTime ≤ 3500 then
    (3, ⟨"performance", 3, "Good (" ++ toString loadTime ++ "ms)."⟩)
  else (0, ⟨"performance", 0, "Slow (" ++ toString loadTime ++ "ms)."⟩)

def eeatBlockMed (eeatCount : Nat) : Nat × ScoreBreakdown :=
  if 2 ≤ eeatCount then (13, ⟨"eeat_signals", 13, "Strong E-E-A-T signals."⟩)
  else if eeatCount = 1 then (5, ⟨"eeat_signals", 5, "Some E-E-A-T signals."⟩)
  else (0, ⟨"eeat_signals", 0, "No E-E-A-T signals."⟩)

def metaBlockMed (hasOptimalTitleLength hasOptimalMetaLength : Bool) : Nat × ScoreBreakdown :=
  let metaPoints := (if hasOptimalTitleLength then 4 else 0) + (if hasOptimalMetaLength then 4 else 0)
  (metaPoints, ⟨"meta_optimization", metaPoints,
    "Meta tags: " ++ toString metaPoints ++ "/8 points."⟩)

def imageGeoBlockMed (imagesWithAlt imageCount : Nat) (altCoverage : Nat × Nat) :
    Nat × ScoreBreakdown :=
  if covGe altCoverage 9 10 then
    (5, ⟨"image_optimization", 5,
      toString imagesWithAlt ++ "/" ++ toString imageCount ++ " with alt."⟩)
  else if covGe altCoverage 1 2 then
    (3, ⟨"image_optimization", 3,
      toString imagesWithAlt ++ "/" ++ toString imageCount ++ " with alt."⟩)
  else (0, ⟨"image_optimization", 0, "Poor alt text coverage."⟩)

def linksGeoBlockMed (internalLinkCount : Nat) : Nat × ScoreBreakdown :=
  if 10 ≤ internalLinkCount then
    (5, ⟨"internal_linking", 5, toString internalLinkCount ++ " internal links."⟩)
  else if 5 ≤ internalLinkCount then
    (3, ⟨"internal_linking", 3, toString internalLinkCount ++ " internal links."⟩)
  else (0, ⟨"internal_linking", 0, "Few internal links."⟩)

def fmtBlockMed (hasStructuredFormatting : Bool) : Nat × ScoreBreakdown :=
  if hasStructuredFormatting then
    (5, ⟨"structured_formatting", 5, "Lists/tables detected."⟩)
  else (0, ⟨"structured_formatting", 0, "No structured formatting."⟩)

def freshBlockMed (hasContentFreshness : Bool) : Nat × ScoreBreakdown :=
  if hasContentFreshness then
    (5, ⟨"content_freshness", 5, "Recent content signals."⟩)
  else (0, ⟨"content_freshness", 0, "No freshness signals."⟩)

/-! ## AI-readiness scoring blocks, business vertical -/

def convBlockBiz (hasConv : Bool) (h1Count : Nat) : Nat × ScoreBreakdown :=
  if hasConv ∧ 0 < h1Count then
    (15, ⟨"conversational_headers", 15, "AI-friendly conversational headers detected."⟩)
  else if 0 < h1Count then
    (5, ⟨"conversational_headers", 5, "Headers present but could be more conversational."⟩)
  else (0, ⟨"conversational_headers", 0, "Missing conversational header structure."⟩)

def structureBlockBiz (h2Count : Nat) : Nat × ScoreBreakdown :=
  if 6 ≤ h2Count then
    (10, ⟨"structure", 10, "Excellent structure: " ++ toString h2Count ++ " H2 sections."⟩)
  else if 4 ≤ h2Count then
    (6, ⟨"structure", 6, "Good structure: " ++ toString h2Count ++ " H2 sections."⟩)
  else (2, ⟨"structure", 2, "Limited structure for AI parsing."⟩)

def depthBlockBiz (wordCount : Nat) : Nat × ScoreBreakdown :=
  if 1500 ≤ wordCount then
    (12, ⟨"content_depth", 12, "Comprehensive content (" ++ toString wordCount ++ " words)."⟩)
  else if 800 ≤ wordCount then
    (8, ⟨"content_depth", 8, "Good depth (" ++ toString wordCount ++ " words)."⟩)
  else if 400 ≤ wordCount then
    (4, ⟨"content_depth", 4, "Moderate depth (" ++ toString wordCount ++ " words)."⟩)
  else
    (0, ⟨"content_depth", 0,
      "Thin content limits AI visibility (" ++ toString wordCount ++ " words)."⟩)

def schemaBlockBiz (hasBusinessSchema hasFaqSchema hasStructuredData : Bool) :
    Nat × ScoreBreakdown :=
  if hasBusinessSchema ∧ hasFaqSchema then
    (15, ⟨"structured_data", 15, "Rich business + FAQ schema markup."⟩)
  else if hasBusinessSchema ∨ hasStructuredData then
    (8, ⟨"structured_data", 8, "Schema markup present."⟩)
  else (0, ⟨"structured_data", 0, "No structured data for AI engines."⟩)

def faqBlockBiz (hasFaqSchema hasFaqContent : Bool) : Nat × ScoreBreakdown :=
  if hasFaqSchema then
    (18, ⟨"faq_schema", 18, "FAQPage schema - excellent for AI answers."⟩)
  else if hasFaqContent then
    (5, ⟨"faq_schema", 5, "FAQ content found but no schema markup."⟩)
  else (0, ⟨"faq_schema", 0, "No FAQ content or schema."⟩)

def voiceBlockBiz (questionCount : Nat) : Nat × ScoreBreakdown :=
  if 8 ≤ questionCount then
    (20, ⟨"ai_search_ready", 20,
      "Excellent AI coverage (" ++ toString questionCount ++ " Q&A patterns)."⟩)
  else if 5 ≤ questionCount then
    (15, ⟨"ai_search_ready", 15,
      "Good AI coverage (" ++ toString questionCount ++ " Q&A patterns)."⟩)
  else if 3 ≤ questionCount then
    (8, ⟨"ai_search_ready", 8,
      "Moderate AI coverage (" ++ toString questionCount ++ " Q&A patterns)."⟩)
  else (2, ⟨"ai_search_ready", 2, "Limited question-answer content for AI."⟩)

def authorityBlockBiz (hasHq hasStats hasCit : Bool) : Nat × ScoreBreakdown :=
  if hasHq ∧ hasStats then
    (12, ⟨"authority_signals", 12, "Strong citations + data points."⟩)
  else if hasCit ∨ hasStats then
    (6, ⟨"authority_signals", 6, "Some authority signals detected."⟩)
  else (0, ⟨"authority_signals", 0, "Add citations and data for credibility."⟩)

def perfBlockBiz (loadTime : Nat) : Nat × ScoreBreakdown :=
  if loadTime ≤ 2000 then
    (5, ⟨"performance", 5, "Fast load time (" ++ toString loadTime ++ "ms)."⟩)
  else if loadTime ≤ 3500 then
    (3, ⟨"performance", 3, "Acceptable speed (" ++ toString loadTime ++ "ms)."⟩)
  else
    (0, ⟨"performance", 0,
      "Slow performance hurts rankings (" ++ toString loadTime ++ "ms)."⟩)

def eeatBlockBiz (eeatCount : Nat) : Nat × ScoreBreakdown :=
  if 3 ≤ eeatCount then
    (13, ⟨"eeat_signals", 13, "Strong E-E-A-T signals (expertise + trust)."⟩)
  else if 2 ≤ eeatCount then (8, ⟨"eeat_signals", 8, "Good E-E-A-T foundation."⟩)
  else if eeatCount = 1 then (4, ⟨"eeat_signals", 4, "Basic E-E-A-T signals present."⟩)
  else (0, ⟨"eeat_signals", 0, "Add author credentials and expertise signals."⟩)

def metaBlockBiz (hasOptimalTitleLength hasOptimalMetaLength : Bool) : Nat × ScoreBreakdown :=
  let metaPoints := (if hasOptimalTitleLength then 5 else 0) + (if hasOptimalMetaLength then 5 else 0)
  (metaPoints, ⟨"meta_optimization", metaPoints,
    "Meta tags: " ++ toString metaPoints ++ "/10 points."⟩)

def imageGeoBlockBiz (imagesWithAlt imageCount : Nat) (altCoverage : Nat × Nat) :
    Nat × ScoreBreakdown :=
  if covGe altCoverage 9 10 then
    (5, ⟨"image_optimization", 5,
      "Excellent alt text (" ++ toString imagesWithAlt ++ "/" ++ toString imageCount ++ ")."⟩)
  else if covGe altCoverage 1 2 then
    (3, ⟨"image_optimization", 3,
      "Partial alt text (" ++ toString imagesWithAlt ++ "/" ++ toString imageCount ++ ")."⟩)
  else (0, ⟨"image_optimization", 0, "Images need alt text for AI indexing."⟩)

def linksGeoBlockBiz (internalLinkCount : Nat) : Nat × ScoreBreakdown :=
  if 10 ≤ internalLinkCount then
    (5, ⟨"internal_linking", 5,
      "Strong internal linking (" ++ toString internalLinkCount ++ " links)."⟩)
  else if 5 ≤ internalLinkCount then
    (3, ⟨"internal_linking", 3,
      "Good internal linking (" ++ toString internalLinkCount ++ " links)."⟩)
  else (0, ⟨"internal_linking", 0, "Add more internal links for topic authority."⟩)

def fmtBlockBiz (hasStructuredFormatting : Bool) : Nat × ScoreBreakdown :=
  if hasStructuredFormatting then
    (5, ⟨"structured_formatting", 5, "Lists/tables help AI parse content."⟩)
  else (0, ⟨"structured_formatting", 0, "Add lists or tables for better AI parsing."⟩)

def freshBlockBiz (hasContentFreshness : Bool) : Nat × ScoreBreakdown :=
  if hasContentFreshness then
    (5, ⟨"content_freshness", 5, "Recent content signals detected."⟩)
  else (0, ⟨"content_freshness", 0, "Update content with current year references."⟩)

/-- Medical-vertical `evaluateGeoSignals`.  The source reads the wall clock
(`new Date().getFullYear()`) for the content-freshness factor; the embedding
passes that year in as `currentYear`. -/
def evaluateGeoSignalsMed (html : String) (snapshot : SnapshotData) (currentYear : Nat) :
    GeoEvaluation :=
  let h := html.data
  let schemaMarkup := snapshot.schemaMarkup
  let wordCount := snapshot.wordCount
  let loadTime := snapshot.loadTime
  let h1Tags := snapshot.h1Tags
  let h2Tags := snapshot.h2Tags
  let h2Count := h2Tags.length
  let hasStructuredData := decide (0 < schemaMarkup.length)
  let hasFaqSchema := schemaMarkup.any (fun b => schemaTypeTest ["FAQPage".data] b.data)
  let hasMedicalSchema := schemaMarkup.any (fun b => schemaTypeTest schemaNamesMed b.data)
  let faqHeading := faqHeadingTest h
  let qCount := questionCountOf h
  let hasFaqContent := hasFaqSchema || faqHeading || decide (3 ≤ qCount)
  let allHeaders := joinLower (h1Tags ++ h2Tags)
  let hasConversationalHeaders := wbTest false convAltsMed allHeaders
  let hasStructuredFormatting :=
    hasTagOpen "<ol".data h || hasTagOpen "<ul".data h || hasTagOpen "<table".data h
  let hasCitations := wbTest true citAltsMed h
  let hasHighQualityCitations := hasHqCitations hqLitsMed h
  let hasStatistics := statTest statWordsMed h
  let hasAuthorByline := hasAuthorBylineMed h
  let hasMedicalReview := medReviewTest h
  let eeatCount := (if hasAuthorByline then 1 else 0) + (if hasMedicalReview then 1 else 0)
  let hasEEAT := decide (0 < eeatCount)
  let titleTag := snapshot.title.getD ""
  let metaDesc := snapshot.metaDescription.getD ""
  let hasTitleTag := decide (0 < titleTag.length)
  let hasOptimalTitleLength := decide (30 ≤ titleTag.length ∧ titleTag.length ≤ 60)
  let hasMetaDescription := decide (0 < metaDesc.length)
  let hasOptimalMetaLength := decide (120 ≤ metaDesc.length ∧ metaDesc.length ≤ 160)
  let hasMetaOptimization := hasTitleTag || hasMetaDescription
  let imageCount := countImgTags h
  let imagesWithAlt := countImgAlt h
  let altCoverage := altCoverageDefault0 html
  let hasImageOptimization := decide (0 < imageCount) && covGt altCoverage 0 1
  let linkCount := internalLinkCount h
  let hasInternalLinks := decide (3 ≤ linkCount)
  let hasContentFreshness := yearTest currentYear h
  let b1 := convBlockMed hasConversationalHeaders h1Tags.length
  let b2 := structureBlockMed h2Count
  let b3 := depthBlockMed wordCount
  let b4 := schemaBlockMed hasMedicalSchema hasStructuredData
  let b5 := faqBlockMed hasFaqSchema hasFaqContent
  let b6 := voiceBlockMed qCount
  let b7 := authorityBlockMed hasHighQualityCitations hasStatistics hasCitations
  let b8 := perfBlockMed loadTime
  let b9 := eeatBlockMed eeatCount
  let b10 := metaBlockMed hasOptimalTitleLength hasOptimalMetaLength
  let b11 := imageGeoBlockMed imagesWithAlt imageCount altCoverage
  let b12 := linksGeoBlockMed linkCount
  let b13 := fmtBlockMed hasStructuredFormatting
  let b14 := freshBlockMed hasContentFreshness
  let rawScore := b1.1 + b2.1 + b3.1 + b4.1 + b5.1 + b6.1 + b7.1 + b8.1 + b9.1 +
    b10.1 + b11.1 + b12.1 + b13.1 + b14.1
  let breakdown := [b1.2, b2.2, b3.2, b4.2, b5.2, b6.2, b7.2, b8.2, b9.2, b10.2,
    b11.2, b12.2, b13.2, b14.2]
  let normalizedScore := jsRound (rawScore * 100) 150
  let finalScore := Nat.max 0 (Nat.min 100 normalizedScore)
  { score := finalScore
    rawScore := rawScore
    breakdown := breakdown
    hasStructuredData := hasStructuredData
    hasFaqSchema := hasFaqSchema
    hasFaqContent := hasFaqContent
    questionCount := qCount
    wordCount := wordCount
    loadTime := loadTime
    h2Count := h2Count
    hasConversationalHeaders := hasConversationalHeaders
    hasCitations := hasCitations
    hasStatistics := hasStatistics
    hasEEAT := hasEEAT
    hasMetaOptimization := hasMetaOptimization
    hasImageOptimization := hasImageOptimization
    hasInternalLinks := hasInternalLinks
    hasContentFreshness := hasContentFreshness }

/-- Business-vertical `evaluateGeoSignals` (`geoScoring.ts`), with the
wall-clock year passed in as `currentYear`. -/
def evaluateGeoSignalsBiz (html : String) (snapshot : SnapshotData) (currentYear : Nat) :
    GeoEvaluation :=
  let h := html.data
  let schemaMarkup := snapshot.schemaMarkup
  let wordCount := snapshot.wordCount
  let loadTime := snapshot.loadTime
  let h1Tags := snapshot.h1Tags
  let h2Tags := snapshot.h2Tags
  let h2Count := h2Tags.length
  let hasStructuredData := decide (0 < schemaMarkup.length)
  let hasFaqSchema := schemaMarkup.any (fun b => schemaTypeTest ["FAQPage".data] b.data)
  let hasBusinessSchema := schemaMarkup.any (fun b => schemaTypeTest schemaNamesBiz b.data)
  let faqHeading := faqHeadingTest h
  let qCount := questionCountOf h
  let hasFaqContent := hasFaqSchema || faqHeading || decide (3 ≤ qCount)
  let allHeaders := joinLower (h1Tags ++ h2Tags)
  let hasConversationalHeaders := wbTest false convAltsBiz allHeaders
  let hasStructuredFormatting :=
    hasTagOpen "<ol".data h || hasTagOpen "<ul".data h || hasTagOpen "<table".data h
  let hasCitations := wbTest true citAltsBiz h
  let hasHighQualityCitations := hasHqCitations hqLitsBiz h
  let hasStatistics := statTest statWordsBiz h
  let hasAuthorByline := wbTest true bylineAltsBiz h
  let hasCredentials := wbTest true credAltsBiz h
  let hasAboutSection := wbTest true aboutAltsBiz h
  let eeatCount := (if hasAuthorByline then 1 else 0) + (if hasCredentials then 1 else 0) +
    (if hasAboutSection then 1 else 0)
  let hasEEAT := decide (0 < eeatCount)
  let titleTag := snapshot.title.getD ""
  let metaDesc := snapshot.metaDescription.getD ""
  let hasTitleTag := decide (0 < titleTag.length)
  let hasOptimalTitleLength := decide (30 ≤ titleTag.length ∧ titleTag.length ≤ 60)
  let hasMetaDescription := decide (0 < metaDesc.length)
  let hasOptimalMetaLength := decide (120 ≤ metaDesc.length ∧ metaDesc.length ≤ 160)
  let hasMetaOptimization := hasTitleTag || hasMetaDescription
  let imageCount := countImgTags h
  let imagesWithAlt := countImgAlt h
  let altCoverage := altCoverageDefault0 html
  let hasImageOptimization := decide (0 < imageCount) && covGt altCoverage 0 1
  let linkCount := internalLinkCount h
  let hasInternalLinks := decide (3 ≤ linkCount)
  let hasContentFreshness := yearTest currentYear h
  let b1 := convBlockBiz hasConversationalHeaders h1Tags.length
  let b2 := structureBlockBiz h2Count
  let b3 := depthBlockBiz wordCount
  let b4 := schemaBlockBiz hasBusinessSchema hasFaqSchema hasStructuredData
  let b5 := faqBlockBiz hasFaqSchema hasFaqContent
  let b6 := voiceBlockBiz qCount
  let b7 := authorityBlockBiz hasHighQualityCitations hasStatistics hasCitations
  let b8 := perfBlockBiz loadTime
  let b9 := eeatBlockBiz eeatCount
  let b10 := metaBlockBiz hasOptimalTitleLength hasOptimalMetaLength
  let b11 := imageGeoBlockBiz imagesWithAlt imageCount altCoverage
  let b12 := linksGeoBlockBiz linkCount
  let b13 := fmtBlockBiz hasStructuredFormatting
  let b14 := freshBlockBiz hasContentFreshness
  let rawScore := b1.1 + b2.1 + b3.1 + b4.1 + b5.1 + b6.1 + b7.1 + b8.1 + b9.1 +
    b10.1 + b11.1 + b12.1 + b13.1 + b14.1
  let breakdown := [b1.2, b2.2, b3.2, b4.2, b5.2, b6.2, b7.2, b8.2, b9.2, b10.2,
    b11.2, b12.2, b13.2, b14.2]
  let normalizedScore := jsRound (rawScore * 100) 150
  let finalScore := Nat.max 0 (Nat.min 100 normalizedScore)
  { score := finalScore
    rawScore := rawScore
    breakdown := breakdown
    hasStructuredData := hasStructuredData
    hasFaqSchema := hasFaqSchema
    hasFaqContent := hasFaqContent
    questionCount := qCount
    wordCount := wordCount
    loadTime := loadTime
    h2Count := h2Count
    hasConversationalHeaders := hasConversationalHeaders
    hasCitations := hasCitations
    hasStatistics := hasStatistics
    hasEEAT := hasEEAT
    hasMetaOptimization := hasMetaOptimization
    hasImageOptimization := hasImageOptimization
    hasInternalLinks := hasInternalLinks
    hasContentFreshness := hasContentFreshness }

/-- Canonical AI-readiness factor order, medical vertical (`orderBreakdown`
of the medical file; `voice_search`). -/
def geoFactorOrderMed : List String :=
  ["conversational_headers", "structure", "content_depth", "structured_data",
   "faq_schema", "voice_search", "authority_signals", "performance",
   "eeat_signals", "meta_optimization", "image_optimization",
   "internal_linking", "structured_formatting", "content_freshness"]

/-- Canonical AI-readiness factor order, business vertical (`orderBreakdown`
of `geoScoring.ts`; `ai_search_ready`). -/
def geoFactorOrderBiz : List String :=
  ["conversational_headers", "structure", "content_depth", "structured_data",
   "faq_schema", "ai_search_ready", "authority_signals", "performance",
   "eeat_signals", "meta_optimization", "image_optimization",
   "internal_linking", "structured_formatting", "content_freshness"]

def orderBreakdownMed (entries : List ScoreBreakdown) : List ScoreBreakdown :=
  geoFactorOrderMed.filterMap (lastEntry entries)

def orderBreakdownBiz (entries : List ScoreBreakdown) : List ScoreBreakdown :=
  geoFactorOrderBiz.filterMap (lastEntry entries)

/-! ## Helper observations used by the verification -/

/-- Sum of the `points` fields of a breakdown. -/
def sumPoints (l : List ScoreBreakdown) : Nat := (l.map (fun e => e.points)).sum

/-- The points awarded to the first breakdown entry carrying a factor name
(the engine pushes each factor exactly once). -/
def factorPoints : List ScoreBreakdown → String → Option Nat
  | [], _ => none
  | e :: t, name => if e.factor = name then some e.points else factorPoints t name

theorem titleBlock_spec (t : String) :
    (titleBlock t).2.points = (titleBlock t).1 ∧
    (titleBlock t).2.factor = "title_tag" ∧ (titleBlock t).1 ≤ 15 := by
  simp only [titleBlock]
  split_ifs <;> exact ⟨rfl, rfl, by simp⟩

theorem metaBlock_spec (m : String) :
    (metaBlock m).2.points = (metaBlock m).1 ∧
    (metaBlock m).2.factor = "meta_description" ∧ (metaBlock m).1 ≤ 15 := by
  simp only [metaBlock]
  split_ifs <;> exact ⟨rfl, rfl, by simp⟩

theorem headerBlock_spec (a b : Nat) :
    (headerBlock a b).2.points = (headerBlock a b).1 ∧
    (headerBlock a b).2.factor = "header_tags" ∧ (headerBlock a b).1 ≤ 15 := by
  simp only [headerBlock]
  split_ifs <;> exact ⟨rfl, rfl, by simp⟩

theorem contentBlock_spec (w : Nat) :
    (contentBlock w).2.points = (contentBlock w).1 ∧
    (contentBlock w).2.factor = "content_quality" ∧ (contentBlock w).1 ≤ 12 := by
  simp only [contentBlock]
  split_ifs <;> exact ⟨rfl, rfl, by simp⟩

theorem structuredBlock_spec (n : Nat) :
    (structuredBlock n).2.points = (structuredBlock n).1 ∧
    (structuredBlock n).2.factor = "structured_data" ∧ (structuredBlock n).1 ≤ 10 := by
  simp only [structuredBlock]
  split_ifs <;> exact ⟨rfl, rfl, by simp⟩

theorem canonicalBlock_spec (b : Bool) :
    (canonicalBlock b).2.points = (canonicalBlock b).1 ∧
    (canonicalBlock b).2.factor = "canonical_tag" ∧ (canonicalBlock b).1 ≤ 7 := by
  simp only [canonicalBlock]
  split_ifs <;> exact ⟨rfl, rfl, by simp⟩

theorem linksBlock_spec (n : Nat) :
    (linksBlock n).2.points = (linksBlock n).1 ∧
    (linksBlock n).2.factor = "internal_links" ∧ (linksBlock n).1 ≤ 10 := by
  simp only [linksBlock]
  split_ifs <;> exact ⟨rfl, rfl, by simp⟩

theorem imageBlock_spec (a c : Nat) (r : Nat × Nat) :
    (imageBlock a c r).2.points = (imageBlock a c r).1 ∧
    (imageBlock a c r).2.factor = "image_optimization" ∧ (imageBlock a c r).1 ≤ 10 := by
  simp only [imageBlock]
  split_ifs <;> exact ⟨rfl, rfl, by simp⟩

theorem viewportBlock_spec (b : Bool) :
    (viewportBlock b).2.points = (viewportBlock b).1 ∧
    (viewportBlock b).2.factor = "mobile_optimization" ∧ (viewportBlock b).1 ≤ 7 := by
  simp only [viewportBlock]
  split_ifs <;> exact ⟨rfl, rfl, by simp⟩

theorem httpsBlock_spec (b : Bool) :
    (httpsBlock b).2.points = (httpsBlock b).1 ∧
    (httpsBlock b).2.factor = "https_security" ∧ (httpsBlock b).1 ≤ 5 := by
  simp only [httpsBlock]
  split_ifs <;> exact ⟨rfl, rfl, by simp⟩

theorem speedBlock_spec (t : Nat) :
    (speedBlock t).2.points = (speedBlock t).1 ∧
    (speedBlock t).2.factor = "page_speed" ∧ (speedBlock t).1 ≤ 7 := by
  simp only [speedBlock]
  split_ifs <;> exact ⟨rfl, rfl, by simp⟩

theorem langBlock_spec (o : Option String) :
    (langBlock o).2.points = (langBlock o).1 ∧
    (langBlock o).2.factor = "language_locale" ∧ (langBlock o).1 ≤ 5 := by
  simp only [langBlock]
  split_ifs <;> exact ⟨rfl, rfl, by simp⟩

/-- The Traditional breakdown, spelled out. -/
theorem seo_breakdown_eq (html : String) (snapshot : SnapshotData) (url : String) :
    (evaluateSeoSignals html snapshot url).breakdown =
      [(titleBlock (snapshot.title.getD "")).2,
       (metaBlock (snapshot.metaDescription.getD "")).2,
       (headerBlock snapshot.h1Tags.length snapshot.h2Tags.length).2,
       (contentBlock snapshot.wordCount).2,
       (structuredBlock snapshot.schemaMarkup.length).2,
       (canonicalBlock (snapshot.canonicalUrl.getD "" != "")).2,
       (linksBlock (internalLinkCount html.data)).2,
       (imageBlock (countImgAlt html.data) (countImgTags html.data) (altCoverageDefault1 html)).2,
       (viewportBlock (hasViewportMeta html.data)).2,
       (httpsBlock (url.startsWith "https://")).2,
       (speedBlock snapshot.loadTime).2,
       (langBlock snapshot.langAttribute).2] := rfl

/-- The Traditional raw score, spelled out. -/
theorem seo_rawScore_eq (html : String) (snapshot : SnapshotData) (url : String) :
    (evaluateSeoSignals html snapshot url).rawScore =
      (titleBlock (snapshot.title.getD "")).1 +
      (metaBlock (snapshot.metaDescription.getD "")).1 +
      (headerBlock snapshot.h1Tags.length snapshot.h2Tags.length).1 +
      (contentBlock snapshot.wordCount).1 +
      (structuredBlock snapshot.schemaMarkup.length).1 +
      (canonicalBlock (snapshot.canonicalUrl.getD "" != "")).1 +
      (linksBlock (internalLinkCount html.data)).1 +
      (imageBlock (countImgAlt html.data) (countImgTags html.data) (altCoverageDefault1 html)).1 +
      (viewportBlock (hasViewportMeta html.data)).1 +
      (httpsBlock (url.startsWith "https://")).1 +
      (speedBlock snapshot.loadTime).1 +
      (langBlock snapshot.langAttribute).1 := rfl

/-- The Traditional final score, spelled out. -/
theorem seo_score_eq (html : String) (snapshot : SnapshotData) (url : String) :
    (evaluateSeoSignals html snapshot url).score =
      Nat.max 0 (Nat.min 100 (jsRound ((evaluateSeoSignals html snapshot url).rawScore * 100) 130)) := rfl

theorem convBlockMed_spec (b : Bool) (n : Nat) :
    (convBlockMed b n).2.points = (convBlockMed b n).1 ∧
    (convBlockMed b n).2.factor = "conversational_headers" ∧ (convBlockMed b n).1 ≤ 15 := by
  simp only [convBlockMed]
  split_ifs <;> exact ⟨rfl, rfl, by simp⟩

theorem structureBlockMed_spec (n : Nat) :
    (structureBlockMed n).2.points = (structureBlockMed n).1 ∧
    (structureBlockMed n).2.factor = "structure" ∧ (structureBlockMed n).1 ≤ 10 := by
  simp only [structureBlockMed]
  split_ifs <;> exact ⟨rfl, rfl, by simp⟩

theorem depthBlockMed_spec (w : Nat) :
    (depthBlockMed w).2.points = (depthBlockMed w).1 ∧
    (depthBlockMed w).2.factor = "content_depth" ∧ (depthBlockMed w).1 ≤ 12 := by
  simp only [depthBlockMed]
  split_ifs <;> exact ⟨rfl, rfl, by simp⟩

theorem schemaBlockMed_spec (a b : Bool) :
    (schemaBlockMed a b).2.points = (schemaBlockMed a b).1 ∧
    (schemaBlockMed a b).2.factor = "structured_data" ∧ (schemaBlockMed a b).1 ≤ 15 := by
  simp only [schemaBlockMed]
  split_ifs <;> exact ⟨rfl, rfl, by simp⟩

theorem faqBlockMed_spec (a b : Bool) :
    (faqBlockMed a b).2.points = (faqBlockMed a b).1 ∧
    (faqBlockMed a b).2.factor = "faq_schema" ∧ (faqBlockMed a b).1 ≤ 18 := by
  simp only [faqBlockMed]
  split_ifs <;> exact ⟨rfl, rfl, by simp⟩

theorem voiceBlockMed_spec (q : Nat) :
    (voiceBlockMed q).2.points = (voiceBlockMed q).1 ∧
    (voiceBlockMed q).2.factor = "voice_search" ∧ (voiceBlockMed q).1 ≤ 20 := by
  simp only [voiceBlockMed]
  split_ifs <;> exact ⟨rfl, rfl, by simp⟩

theorem authorityBlockMed_spec (a b c : Bool) :
    (authorityBlockMed a b c).2.points = (authorityBlockMed a b c).1 ∧
    (authorityBlockMed a b c).2.factor = "authority_signals" ∧ (authorityBlockMed a b c).1 ≤ 12 := by
  simp only [authorityBlockMed]
  split_ifs <;> exact ⟨rfl, rfl, by simp⟩

theorem perfBlockMed_spec (t : Nat) :
    (perfBlockMed t).2.points = (perfBlockMed t).1 ∧
    (perfBlockMed t).2.factor = "performance" ∧ (perfBlockMed t).1 ≤ 5 := by
  simp only [perfBlockMed]
  split_ifs <;> exact ⟨rfl, rfl, by simp⟩

theorem eeatBlockMed_spec (n : Nat) :
    (eeatBlockMed n).2.points = (eeatBlockMed n).1 ∧
    (eeatBlockMed n).2.factor = "eeat_signals" ∧ (eeatBlockMed n).1 ≤ 13 := by
  simp only [eeatBlockMed]
  split_ifs <;> exact ⟨rfl, rfl, by simp⟩

theorem metaBlockMed_spec (a b : Bool) :
    (metaBlockMed a b).2.points = (metaBlockMed a b).1 ∧
    (metaBlockMed a b).2.factor = "meta_optimization" ∧ (metaBlockMed a b).1 ≤ 8 := by
  refine ⟨rfl, rfl, ?_⟩
  simp only [metaBlockMed]
  split_ifs <;> simp

theorem imageGeoBlockMed_spec (a c : Nat) (r : Nat × Nat) :
    (imageGeoBlockMed a c r).2.points = (imageGeoBlockMed a c r).1 ∧
    (imageGeoBlockMed a c r).2.factor = "image_optimization" ∧ (imageGeoBlockMed a c r).1 ≤ 5 := by
  simp only [imageGeoBlockMed]
  split_ifs <;> exact ⟨rfl, rfl, by simp⟩

theorem linksGeoBlockMed_spec (n : Nat) :
    (linksGeoBlockMed n).2.points = (linksGeoBlockMed n).1 ∧
    (linksGeoBlockMed n).2.factor = "internal_linking" ∧ (linksGeoBlockMed n).1 ≤ 5 := by
  simp only [linksGeoBlockMed]
  split_ifs <;> exact ⟨rfl, rfl, by simp⟩

theorem fmtBlockMed_spec (b : Bool) :
    (fmtBlockMed b).2.points = (fmtBlockMed b).1 ∧
    (fmtBlockMed b).2.factor = "structured_formatting" ∧ (fmtBlockMed b).1 ≤ 5 := by
  simp only [fmtBlockMed]
  split_ifs <;> exact ⟨rfl, rfl, by simp⟩

theorem freshBlockMed_spec (b : Bool) :
    (freshBlockMed b).2.points = (freshBlockMed b).1 ∧
    (freshBlockMed b).2.factor = "content_freshness" ∧ (freshBlockMed b).1 ≤ 5 := by
  simp only [freshBlockMed]
  split_ifs <;> exact ⟨rfl, rfl, by simp⟩

theorem convBlockBiz_spec (b : Bool) (n : Nat) :
    (convBlockBiz b n).2.points = (convBlockBiz b n).1 ∧
    (convBlockBiz b n).2.factor = "conversational_headers" ∧ (convBlockBiz b n).1 ≤ 15 := by
  simp only [convBlockBiz]
  split_ifs <;> exact ⟨rfl, rfl, by simp⟩

theorem structureBlockBiz_spec (n : Nat) :
    (structureBlockBiz n).2.points = (structureBlockBiz n).1 ∧
    (structureBlockBiz n).2.factor = "structure" ∧ (structureBlockBiz n).1 ≤ 10 := by
  simp only [structureBlockBiz]
  split_ifs <;> exact ⟨rfl, rfl, by simp⟩

theorem depthBlockBiz_spec (w : Nat) :
    (depthBlockBiz w).2.points = (depthBlockBiz w).1 ∧
    (depthBlockBiz w).2.factor = "content_depth" ∧ (depthBlockBiz w).1 ≤ 12 := by
  simp only [depthBlockBiz]
  split_ifs <;> exact ⟨rfl, rfl, by simp⟩

theorem schemaBlockBiz_spec (a b c : Bool) :
    (schemaBlockBiz a b c).2.points = (schemaBlockBiz a b c).1 ∧
    (schemaBlockBiz a b c).2.factor = "structured_data" ∧ (schemaBlockBiz a b c).1 ≤ 15 := by
  simp only [schemaBlockBiz]
  split_ifs <;> exact ⟨rfl, rfl, by simp⟩

theorem faqBlockBiz_spec (a b : Bool) :
    (faqBlockBiz a b).2.points = (faqBlockBiz a b).1 ∧
    (faqBlockBiz a b).2.factor = "faq_schema" ∧ (faqBlockBiz a b).1 ≤ 18 := by
  simp only [faqBlockBiz]
  split_ifs <;> exact ⟨rfl, rfl, by simp⟩

theorem voiceBlockBiz_spec (q : Nat) :
    (voiceBlockBiz q).2.points = (voiceBlockBiz q).1 ∧
    (voiceBlockBiz q).2.factor = "ai_search_ready" ∧ (voiceBlockBiz q).1 ≤ 20 := by
  simp only [voiceBlockBiz]
  split_ifs <;> exact ⟨rfl, rfl, by simp⟩

theorem authorityBlockBiz_spec (a b c : Bool) :
    (authorityBlockBiz a b c).2.points = (authorityBlockBiz a b c).1 ∧
    (authorityBlockBiz a b c).2.factor = "authority_signals" ∧ (authorityBlockBiz a b c).1 ≤ 12 := by
  simp only [authorityBlockBiz]
  split_ifs <;> exact ⟨rfl, rfl, by simp⟩

theorem perfBlockBiz_spec (t : Nat) :
    (perfBlockBiz t).2.points = (perfBlockBiz t).1 ∧
    (perfBlockBiz t).2.factor = "performance" ∧ (perfBlockBiz t).1 ≤ 5 := by
  simp only [perfBlockBiz]
  split_ifs <;> exact ⟨rfl, rfl, by simp⟩

theorem eeatBlockBiz_spec (n : Nat) :
    (eeatBlockBiz n).2.points = (eeatBlockBiz n).1 ∧
    (eeatBlockBiz n).2.factor = "eeat_signals" ∧ (eeatBlockBiz n).1 ≤ 13 := by
  simp only [eeatBlockBiz]
  split_ifs <;> exact ⟨rfl, rfl, by simp⟩

theorem metaBlockBiz_spec (a b : Bool) :
    (metaBlockBiz a b).2.points = (metaBlockBiz a b).1 ∧
    (metaBlockBiz a b).2.factor = "meta_optimization" ∧ (metaBlockBiz a b).1 ≤ 10 := by
  refine ⟨rfl, rfl, ?_⟩
  simp only [metaBlockBiz]
  split_ifs <;> simp

theorem imageGeoBlockBiz_spec (a c : Nat) (r : Nat × Nat) :
    (imageGeoBlockBiz a c r).2.points = (imageGeoBlockBiz a c r).1 ∧
    (imageGeoBlockBiz a c r).2.factor = "image_optimization" ∧ (imageGeoBlockBiz a c r).1 ≤ 5 := by
  simp only [imageGeoBlockBiz]
  split_ifs <;> exact ⟨rfl, rfl, by simp⟩

theorem linksGeoBlockBiz_spec (n : Nat) :
    (linksGeoBlockBiz n).2.points = (linksGeoBlockBiz n).1 ∧
    (linksGeoBlockBiz n).2.factor = "internal_linking" ∧ (linksGeoBlockBiz n).1 ≤ 5 := by
  simp only [linksGeoBlockBiz]
  split_ifs <;> exact ⟨rfl, rfl, by simp⟩

theorem fmtBlockBiz_spec (b : Bool) :
    (fmtBlockBiz b).2.points = (fmtBlockBiz b).1 ∧
    (fmtBlockBiz b).2.factor = "structured_formatting" ∧ (fmtBlockBiz b).1 ≤ 5 := by
  simp only [fmtBlockBiz]
  split_ifs <;> exact ⟨rfl, rfl, by simp⟩

theorem freshBlockBiz_spec (b : Bool) :
    (freshBlockBiz b).2.points = (freshBlockBiz b).1 ∧
    (freshBlockBiz b).2.factor = "content_freshness" ∧ (freshBlockBiz b).1 ≤ 5 := by
  simp only [freshBlockBiz]
  split_ifs <;> exact ⟨rfl, rfl, by simp⟩

/-- The Med AI-readiness breakdown, spelled out. -/
theorem geoMed_breakdown_eq (html : String) (snapshot : SnapshotData) (currentYear : Nat) :
    (evaluateGeoSignalsMed html snapshot currentYear).breakdown =
      [(convBlockMed (wbTest false convAltsMed (joinLower (snapshot.h1Tags ++ snapshot.h2Tags))) snapshot.h1Tags.length).2,
       (structureBlockMed snapshot.h2Tags.length).2,
       (depthBlockMed snapshot.wordCount).2,
       (schemaBlockMed (snapshot.schemaMarkup.any (fun b => schemaTypeTest schemaNamesMed b.data)) (decide (0 < snapshot.schemaMarkup.length))).2,
       (faqBlockMed (snapshot.schemaMarkup.any (fun b => schemaTypeTest ["FAQPage".data] b.data)) ((snapshot.schemaMarkup.any (fun b => schemaTypeTest ["FAQPage".data] b.data)) || faqHeadingTest html.data || decide (3 ≤ questionCountOf html.data))).2,
       (voiceBlockMed (questionCountOf html.data)).2,
       (authorityBlockMed (hasHqCitations hqLitsMed html.data) (statTest statWordsMed html.data) (wbTest true citAltsMed html.data)).2,
       (perfBlockMed snapshot.loadTime).2,
       (eeatBlockMed ((if hasAuthorBylineMed html.data then 1 else 0) + (if medReviewTest html.data then 1 else 0))).2,
       (metaBlockMed (decide (30 ≤ (snapshot.title.getD "").length ∧ (snapshot.title.getD "").length ≤ 60)) (decide (120 ≤ (snapshot.metaDescription.getD "").length ∧ (snapshot.metaDescription.getD "").length ≤ 160))).2,
       (imageGeoBlockMed (countImgAlt html.data) (countImgTags html.data) (altCoverageDefault0 html)).2,
       (linksGeoBlockMed (internalLinkCount html.data)).2,
       (fmtBlockMed (hasTagOpen "<ol".data html.data || hasTagOpen "<ul".data html.data || hasTagOpen "<table".data html.data)).2,
       (freshBlockMed (yearTest currentYear html.data)).2] := rfl

/-- The Med AI-readiness raw score, spelled out. -/
theorem geoMed_rawScore_eq (html : String) (snapshot : SnapshotData) (currentYear : Nat) :
    (evaluateGeoSignalsMed html snapshot currentYear).rawScore =
      (convBlockMed (wbTest false convAltsMed (joinLower (snapshot.h1Tags ++ snapshot.h2Tags))) snapshot.h1Tags.length).1 +
      (structureBlockMed snapshot.h2Tags.length).1 +
      (depthBlockMed snapshot.wordCount).1 +
      (schemaBlockMed (snapshot.schemaMarkup.any (fun b => schemaTypeTest schemaNamesMed b.data)) (decide (0 < snapshot.schemaMarkup.length))).1 +
      (faqBlockMed (snapshot.schemaMarkup.any (fun b => schemaTypeTest ["FAQPage".data] b.data)) ((snapshot.schemaMarkup.any (fun b => schemaTypeTest ["FAQPage".data] b.data)) || faqHeadingTest html.data || decide (3 ≤ questionCountOf html.data))).1 +
      (voiceBlockMed (questionCountOf html.data)).1 +
      (authorityBlockMed (hasHqCitations hqLitsMed html.data) (statTest statWordsMed html.data) (wbTest true citAltsMed html.data)).1 +
      (perfBlockMed snapshot.loadTime).1 +
      (eeatBlockMed ((if hasAuthorBylineMed html.data then 1 else 0) + (if medReviewTest html.data then 1 else 0))).1 +
      (metaBlockMed (decide (30 ≤ (snapshot.title.getD "").length ∧ (snapshot.title.getD "").length ≤ 60)) (decide (120 ≤ (snapshot.metaDescription.getD "").length ∧ (snapshot.metaDescription.getD "").length ≤ 160))).1 +
      (imageGeoBlockMed (countImgAlt html.data) (countImgTags html.data) (altCoverageDefault0 html)).1 +
      (linksGeoBlockMed (internalLinkCount html.data)).1 +
      (fmtBlockMed (hasTagOpen "<ol".data html.data || hasTagOpen "<ul".data html.data || hasTagOpen "<table".data html.data)).1 +
      (freshBlockMed (yearTest currentYear html.data)).1 := rfl

/-- The Med AI-readiness final score, spelled out. -/
theorem geoMed_score_eq (html : String) (snapshot : SnapshotData) (currentYear : Nat) :
    (evaluateGeoSignalsMed html snapshot currentYear).score =
      Nat.max 0 (Nat.min 100
        (jsRound ((evaluateGeoSignalsMed html snapshot currentYear).rawScore * 100) 150)) := rfl

/-- The Biz AI-readiness breakdown, spelled out. -/
theorem geoBiz_breakdown_eq (html : String) (snapshot : SnapshotData) (currentYear : Nat) :
    (evaluateGeoSignalsBiz html snapshot currentYear).breakdown =
      [(convBlockBiz (wbTest false convAltsBiz (joinLower (snapshot.h1Tags ++ snapshot.h2Tags))) snapshot.h1Tags.length).2,
       (structureBlockBiz snapshot.h2Tags.length).2,
       (depthBlockBiz snapshot.wordCount).2,
       (schemaBlockBiz (snapshot.schemaMarkup.any (fun b => schemaTypeTest schemaNamesBiz b.data)) (snapshot.schemaMarkup.any (fun b => schemaTypeTest ["FAQPage".data] b.data)) (decide (0 < snapshot.schemaMarkup.length))).2,
       (faqBlockBiz (snapshot.schemaMarkup.any (fun b => schemaTypeTest ["FAQPage".data] b.data)) ((snapshot.schemaMarkup.any (fun b => schemaTypeTest ["FAQPage".data] b.data)) || faqHeadingTest html.data || decide (3 ≤ questionCountOf html.data))).2,
       (voiceBlockBiz (questionCountOf html.data)).2,
       (authorityBlockBiz (hasHqCitations hqLitsBiz html.data) (statTest statWordsBiz html.data) (wbTest true citAltsBiz html.data)).2,
       (perfBlockBiz snapshot.loadTime).2,
       (eeatBlockBiz ((if wbTest true bylineAltsBiz html.data then 1 else 0) + (if wbTest true credAltsBiz html.data then 1 else 0) + (if wbTest true aboutAltsBiz html.data then 1 else 0))).2,
       (metaBlockBiz (decide (30 ≤ (snapshot.title.getD "").length ∧ (snapshot.title.getD "").length ≤ 60)) (decide (120 ≤ (snapshot.metaDescription.getD "").length ∧ (snapshot.metaDescription.getD "").length ≤ 160))).2,
       (imageGeoBlockBiz (countImgAlt html.data) (countImgTags html.data) (altCoverageDefault0 html)).2,
       (linksGeoBlockBiz (internalLinkCount html.data)).2,
       (fmtBlockBiz (hasTagOpen "<ol".data html.data || hasTagOpen "<ul".data html.data || hasTagOpen "<table".data html.data)).2,
       (freshBlockBiz (yearTest currentYear html.data)).2] := rfl

/-- The Biz AI-readiness raw score, spelled out. -/
theorem geoBiz_rawScore_eq (html : String) (snapshot : SnapshotData) (currentYear : Nat) :
    (evaluateGeoSignalsBiz html snapshot currentYear).rawScore =
      (convBlockBiz (wbTest false convAltsBiz (joinLower (snapshot.h1Tags ++ snapshot.h2Tags))) snapshot.h1Tags.length).1 +
      (structureBlockBiz snapshot.h2Tags.length).1 +
      (depthBlockBiz snapshot.wordCount).1 +
      (schemaBlockBiz (snapshot.schemaMarkup.any (fun b => schemaTypeTest schemaNamesBiz b.data)) (snapshot.schemaMarkup.any (fun b => schemaTypeTest ["FAQPage".data] b.data)) (decide (0 < snapshot.schemaMarkup.length))).1 +
      (faqBlockBiz (snapshot.schemaMarkup.any (fun b => schemaTypeTest ["FAQPage".data] b.data)) ((snapshot.schemaMarkup.any (fun b => schemaTypeTest ["FAQPage".data] b.data)) || faqHeadingTest html.data || decide (3 ≤ questionCountOf html.data))).1 +
      (voiceBlockBiz (questionCountOf html.data)).1 +
      (authorityBlockBiz (hasHqCitations hqLitsBiz html.data) (statTest statWordsBiz html.data) (wbTest true citAltsBiz html.data)).1 +
      (perfBlockBiz snapshot.loadTime).1 +
      (eeatBlockBiz ((if wbTest true bylineAltsBiz html.data then 1 else 0) + (if wbTest true credAltsBiz html.data then 1 else 0) + (if wbTest true aboutAltsBiz html.data then 1 else 0))).1 +
      (metaBlockBiz (decide (30 ≤ (snapshot.title.getD "").length ∧ (snapshot.title.getD "").length ≤ 60)) (decide (120 ≤ (snapshot.metaDescription.getD "").length ∧ (snapshot.metaDescription.getD "").length ≤ 160))).1 +
      (imageGeoBlockBiz (countImgAlt html.data) (countImgTags html.data) (altCoverageDefault0 html)).1 +
      (linksGeoBlockBiz (internalLinkCount html.data)).1 +
      (fmtBlockBiz (hasTagOpen "<ol".data html.data || hasTagOpen "<ul".data html.data || hasTagOpen "<table".data html.data)).1 +
      (freshBlockBiz (yearTest currentYear html.data)).1 := rfl

/-- The Biz AI-readiness final score, spelled out. -/
theorem geoBiz_score_eq (html : String) (snapshot : SnapshotData) (currentYear : Nat) :
    (evaluateGeoSignalsBiz html snapshot currentYear).score =
      Nat.max 0 (Nat.min 100
        (jsRound ((evaluateGeoSignalsBiz html snapshot currentYear).rawScore * 100) 150)) := rfl


theorem titleBlock_pts (t : String) : (titleBlock t).2.points = (titleBlock t).1 := (titleBlock_spec t).1

theorem metaBlock_pts (m : String) : (metaBlock m).2.points = (metaBlock m).1 := (metaBlock_spec m).1

theorem headerBlock_pts (a b : Nat) : (headerBlock a b).2.points = (headerBlock a b).1 := (headerBlock_spec a b).1

theorem contentBlock_pts (w : Nat) : (contentBlock w).2.points = (contentBlock w).1 := (contentBlock_spec w).1

theorem structuredBlock_pts (n : Nat) : (structuredBlock n).2.points = (structuredBlock n).1 := (structuredBlock_spec n).1

theorem canonicalBlock_pts (b : Bool) : (canonicalBlock b).2.points = (canonicalBlock b).1 := (canonicalBlock_spec b).1

theorem linksBlock_pts (n : Nat) : (linksBlock n).2.points = (linksBlock n).1 := (linksBlock_spec n).1

theorem imageBlock_pts (a c : Nat) (r : Nat × Nat) : (imageBlock a c r).2.points = (imageBlock a c r).1 := (imageBlock_spec a c r).1

theorem viewportBlock_pts (b : Bool) : (viewportBlock b).2.points = (viewportBlock b).1 := (viewportBlock_spec b).1

theorem httpsBlock_pts (b : Bool) : (httpsBlock b).2.points = (httpsBlock b).1 := (httpsBlock_spec b).1

theorem speedBlock_pts (t : Nat) : (speedBlock t).2.points = (speedBlock t).1 := (speedBlock_spec t).1

theorem langBlock_pts (o : Option String) : (langBlock o).2.points = (langBlock o).1 := (langBlock_spec o).1

theorem convBlockMed_pts (b : Bool) (n : Nat) : (convBlockMed b n).2.points = (convBlockMed b n).1 := (convBlockMed_spec b n).1

theorem structureBlockMed_pts (n : Nat) : (structureBlockMed n).2.points = (structureBlockMed n).1 := (structureBlockMed_spec n).1

theorem depthBlockMed_pts (w : Nat) : (depthBlockMed w).2.points = (depthBlockMed w).1 := (depthBlockMed_spec w).1

theorem schemaBlockMed_pts (a b : Bool) : (schemaBlockMed a b).2.points = (schemaBlockMed a b).1 := (schemaBlockMed_spec a b).1

theorem faqBlockMed_pts (a b : Bool) : (faqBlockMed a b).2.points = (faqBlockMed a b).1 := (faqBlockMed_spec a b).1

theorem voiceBlockMed_pts (q : Nat) : (voiceBlockMed q).2.points = (voiceBlockMed q).1 := (voiceBlockMed_spec q).1

theorem authorityBlockMed_pts (a b c : Bool) : (authorityBlockMed a b c).2.points = (authorityBlockMed a b c).1 := (authorityBlockMed_spec a b c).1

theorem perfBlockMed_pts (t : Nat) : (perfBlockMed t).2.points = (perfBlockMed t).1 := (perfBlockMed_spec t).1

theorem eeatBlockMed_pts (n : Nat) : (eeatBlockMed n).2.points = (eeatBlockMed n).1 := (eeatBlockMed_spec n).1

theorem metaBlockMed_pts (a b : Bool) : (metaBlockMed a b).2.points = (metaBlockMed a b).1 := (metaBlockMed_spec a b).1

theorem imageGeoBlockMed_pts (a c : Nat) (r : Nat × Nat) : (imageGeoBlockMed a c r).2.points = (imageGeoBlockMed a c r).1 := (imageGeoBlockMed_spec a c r).1

theorem linksGeoBlockMed_pts (n : Nat) : (linksGeoBlockMed n).2.points = (linksGeoBlockMed n).1 := (linksGeoBlockMed_spec n).1

theorem fmtBlockMed_pts (b : Bool) : (fmtBlockMed b).2.points = (fmtBlockMed b).1 := (fmtBlockMed_spec b).1

theorem freshBlockMed_pts (b : Bool) : (freshBlockMed b).2.points = (freshBlockMed b).1 := (freshBlockMed_spec b).1

theorem convBlockBiz_pts (b : Bool) (n : Nat) : (convBlockBiz b n).2.points = (convBlockBiz b n).1 := (convBlockBiz_spec b n).1

theorem structureBlockBiz_pts (n : Nat) : (structureBlockBiz n).2.points = (structureBlockBiz n).1 := (structureBlockBiz_spec n).1

theorem depthBlockBiz_pts (w : Nat) : (depthBlockBiz w).2.points = (depthBlockBiz w).1 := (depthBlockBiz_spec w).1

theorem schemaBlockBiz_pts (a b c : Bool) : (schemaBlockBiz a b c).2.points = (schemaBlockBiz a b c).1 := (schemaBlockBiz_spec a b c).1

theorem faqBlockBiz_pts (a b : Bool) : (faqBlockBiz a b).2.points = (faqBlockBiz a b).1 := (faqBlockBiz_spec a b).1

theorem voiceBlockBiz_pts (q : Nat) : (voiceBlockBiz q).2.points = (voiceBlockBiz q).1 := (voiceBlockBiz_spec q).1

theorem authorityBlockBiz_pts (a b c : Bool) : (authorityBlockBiz a b c).2.points = (authorityBlockBiz a b c).1 := (authorityBlockBiz_spec a b c).1

theorem perfBlockBiz_pts (t : Nat) : (perfBlockBiz t).2.points = (perfBlockBiz t).1 := (perfBlockBiz_spec t).1

theorem eeatBlockBiz_pts (n : Nat) : (eeatBlockBiz n).2.points = (eeatBlockBiz n).1 := (eeatBlockBiz_spec n).1

theorem metaBlockBiz_pts (a b : Bool) : (metaBlockBiz a b).2.points = (metaBlockBiz a b).1 := (metaBlockBiz_spec a b).1

theorem imageGeoBlockBiz_pts (a c : Nat) (r : Nat × Nat) : (imageGeoBlockBiz a c r).2.points = (imageGeoBlockBiz a c r).1 := (imageGeoBlockBiz_spec a c r).1

theorem linksGeoBlockBiz_pts (n : Nat) : (linksGeoBlockBiz n).2.points = (linksGeoBlockBiz n).1 := (linksGeoBlockBiz_spec n).1

theorem fmtBlockBiz_pts (b : Bool) : (fmtBlockBiz b).2.points = (fmtBlockBiz b).1 := (fmtBlockBiz_spec b).1

theorem freshBlockBiz_pts (b : Bool) : (freshBlockBiz b).2.points = (freshBlockBiz b).1 := (freshBlockBiz_spec b).1

/-- C4: for every input, each component's `rawScore` equals the sum of the
`points` of all breakdown entries, and never exceeds the component's raw
maximum (130 for Traditional, 150 for both AI-readiness variants). -/
theorem rawScore_eq_sum_and_bounded (html : String) (snapshot : SnapshotData)
    (url : String) (currentYear : Nat) :
    ((evaluateSeoSignals html snapshot url).rawScore
        = sumPoints (evaluateSeoSignals html snapshot url).breakdown
      ∧ (evaluateSeoSignals html snapshot url).rawScore ≤ 130)
    ∧ ((evaluateGeoSignalsBiz html snapshot currentYear).rawScore
        = sumPoints (evaluateGeoSignalsBiz html snapshot currentYear).breakdown
      ∧ (evaluateGeoSignalsBiz html snapshot currentYear).rawScore ≤ 150)
    ∧ ((evaluateGeoSignalsMed html snapshot currentYear).rawScore
        = sumPoints (evaluateGeoSignalsMed html snapshot currentYear).breakdown
      ∧ (evaluateGeoSignalsMed html snapshot currentYear).rawScore ≤ 150) := by
  refine ⟨⟨?_, ?_⟩, ⟨?_, ?_⟩, ?_, ?_⟩
  ·
    rw [seo_rawScore_eq html snapshot url, seo_breakdown_eq html snapshot url]
    simp only [sumPoints, List.map_cons, List.map_nil, List.sum_cons, List.sum_nil,
      titleBlock_pts, metaBlock_pts, headerBlock_pts, contentBlock_pts, structuredBlock_pts, canonicalBlock_pts, linksBlock_pts, imageBlock_pts, viewportBlock_pts, httpsBlock_pts, speedBlock_pts, langBlock_pts]
    omega
  ·
    rw [seo_rawScore_eq html snapshot url]
    have h0 := (titleBlock_spec (snapshot.title.getD "")).2.2
    have h1 := (metaBlock_spec (snapshot.metaDescription.getD "")).2.2
    have h2 := (headerBlock_spec snapshot.h1Tags.length snapshot.h2Tags.length).2.2
    have h3 := (contentBlock_spec snapshot.wordCount).2.2
    have h4 := (structuredBlock_spec snapshot.schemaMarkup.length).2.2
    have h5 := (canonicalBlock_spec (snapshot.canonicalUrl.getD "" != "")).2.2
    have h6 := (linksBlock_spec (internalLinkCount html.data)).2.2
    have h7 := (imageBlock_spec (countImgAlt html.data) (countImgTags html.data) (altCoverageDefault1 html)).2.2
    have h8 := (viewportBlock_spec (hasViewportMeta html.data)).2.2
    have h9 := (httpsBlock_spec (url.startsWith "https://")).2.2
    have h10 := (speedBlock_spec snapshot.loadTime).2.2
    have h11 := (langBlock_spec snapshot.langAttribute).2.2
    omega
  ·
    rw [geoBiz_rawScore_eq html snapshot currentYear, geoBiz_breakdown_eq html snapshot currentYear]
    simp only [sumPoints, List.map_cons, List.map_nil, List.sum_cons, List.sum_nil,
      convBlockBiz_pts, structureBlockBiz_pts, depthBlockBiz_pts, schemaBlockBiz_pts, faqBlockBiz_pts, voiceBlockBiz_pts, authorityBlockBiz_pts, perfBlockBiz_pts, eeatBlockBiz_pts, metaBlockBiz_pts, imageGeoBlockBiz_pts, linksGeoBlockBiz_pts, fmtBlockBiz_pts, freshBlockBiz_pts]
    omega
  ·
    rw [geoBiz_rawScore_eq html snapshot currentYear]
    have h0 := (convBlockBiz_spec (wbTest false convAltsBiz (joinLower (snapshot.h1Tags ++ snapshot.h2Tags))) snapshot.h1Tags.length).2.2
    have h1 := (structureBlockBiz_spec snapshot.h2Tags.length).2.2
    have h2 := (depthBlockBiz_spec snapshot.wordCount).2.2
    have h3 := (schemaBlockBiz_spec (snapshot.schemaMarkup.any (fun b => schemaTypeTest schemaNamesBiz b.data)) (snapshot.schemaMarkup.any (fun b => schemaTypeTest ["FAQPage".data] b.data)) (decide (0 < snapshot.schemaMarkup.length))).2.2
    have h4 := (faqBlockBiz_spec (snapshot.schemaMarkup.any (fun b => schemaTypeTest ["FAQPage".data] b.data)) ((snapshot.schemaMarkup.any (fun b => schemaTypeTest ["FAQPage".data] b.data)) || faqHeadingTest html.data || decide (3 ≤ questionCountOf html.data))).2.2
    have h5 := (voiceBlockBiz_spec (questionCountOf html.data)).2.2
    have h6 := (authorityBlockBiz_spec (hasHqCitations hqLitsBiz html.data) (statTest statWordsBiz html.data) (wbTest true citAltsBiz html.data)).2.2
    have h7 := (perfBlockBiz_spec snapshot.loadTime).2.2
    have h8 := (eeatBlockBiz_spec ((if wbTest true bylineAltsBiz html.data then 1 else 0) + (if wbTest true credAltsBiz html.data then 1 else 0) + (if wbTest true aboutAltsBiz html.data then 1 else 0))).2.2
    have h9 := (metaBlockBiz_spec (decide (30 ≤ (snapshot.title.getD "").length ∧ (snapshot.title.getD "").length ≤ 60)) (decide (120 ≤ (snapshot.metaDescription.getD "").length ∧ (snapshot.metaDescription.getD "").length ≤ 160))).2.2
    have h10 := (imageGeoBlockBiz_spec (countImgAlt html.data) (countImgTags html.data) (altCoverageDefault0 html)).2.2
    have h11 := (linksGeoBlockBiz_spec (internalLinkCount html.data)).2.2
    have h12 := (fmtBlockBiz_spec (hasTagOpen "<ol".data html.data || hasTagOpen "<ul".data html.data || hasTagOpen "<table".data html.data)).2.2
    have h13 := (freshBlockBiz_spec (yearTest currentYear html.data)).2.2
    omega
  ·
    rw [geoMed_rawScore_eq html snapshot currentYear, geoMed_breakdown_eq html snapshot currentYear]
    simp only [sumPoints, List.map_cons, List.map_nil, List.sum_cons, List.sum_nil,
      convBlockMed_pts, structureBlockMed_pts, depthBlockMed_pts, schemaBlockMed_pts, faqBlockMed_pts, voiceBlockMed_pts, authorityBlockMed_pts, perfBlockMed_pts, eeatBlockMed_pts, metaBlockMed_pts, imageGeoBlockMed_pts, linksGeoBlockMed_pts, fmtBlockMed_pts, freshBlockMed_pts]
    omega
  ·
    rw [geoMed_rawScore_eq html snapshot currentYear]
    have h0 := (convBlockMed_spec (wbTest false convAltsMed (joinLower (snapshot.h1Tags ++ snapshot.h2Tags))) snapshot.h1Tags.length).2.2
    have h1 := (structureBlockMed_spec snapshot.h2Tags.length).2.2
    have h2 := (depthBlockMed_spec snapshot.wordCount).2.2
    have h3 := (schemaBlockMed_spec (snapshot.schemaMarkup.any (fun b => schemaTypeTest schemaNamesMed b.data)) (decide (0 < snapshot.schemaMarkup.length))).2.2
    have h4 := (faqBlockMed_spec (snapshot.schemaMarkup.any (fun b => schemaTypeTest ["FAQPage".data] b.data)) ((snapshot.schemaMarkup.any (fun b => schemaTypeTest ["FAQPage".data] b.data)) || faqHeadingTest html.data || decide (3 ≤ questionCountOf html.data))).2.2
    have h5 := (voiceBlockMed_spec (questionCountOf html.data)).2.2
    have h6 := (authorityBlockMed_spec (hasHqCitations hqLitsMed html.data) (statTest statWordsMed html.data) (wbTest true citAltsMed html.data)).2.2
    have h7 := (perfBlockMed_spec snapshot.loadTime).2.2
    have h8 := (eeatBlockMed_spec ((if hasAuthorBylineMed html.data then 1 else 0) + (if medReviewTest html.data then 1 else 0))).2.2
    have h9 := (metaBlockMed_spec (decide (30 ≤ (snapshot.title.getD "").length ∧ (snapshot.title.getD "").length ≤ 60)) (decide (120 ≤ (snapshot.metaDescription.getD "").length ∧ (snapshot.metaDescription.getD "").length ≤ 160))).2.2
    have h10 := (imageGeoBlockMed_spec (countImgAlt html.data) (countImgTags html.data) (altCoverageDefault0 html)).2.2
    have h11 := (linksGeoBlockMed_spec (internalLinkCount html.data)).2.2
    have h12 := (fmtBlockMed_spec (hasTagOpen "<ol".data html.data || hasTagOpen "<ul".data html.data || hasTagOpen "<table".data html.data)).2.2
    have h13 := (freshBlockMed_spec (yearTest currentYear html.data)).2.2
    omega

/-- The lower clamp `Math.max(0, ...)` is the identity on naturals. -/
theorem clampTop (x : Nat) : Nat.max 0 (Nat.min 100 x) = Nat.min 100 x := by
  simp [Nat.max_def]

/-- C5: each component's returned score equals
`round(rawPoints / rawPointsMax * 100)` clamped to `[0, 100]`, hence is
always at most 100 (non-negativity is inherent to the `Nat` scores). -/
theorem normalizedScore_formula_and_bounded (html : String) (snapshot : SnapshotData)
    (url : String) (currentYear : Nat) :
    ((evaluateSeoSignals html snapshot url).score
        = Nat.min 100 (jsRound ((evaluateSeoSignals html snapshot url).rawScore * 100) 130)
      ∧ (evaluateSeoSignals html snapshot url).score ≤ 100)
    ∧ ((evaluateGeoSignalsBiz html snapshot currentYear).score
        = Nat.min 100 (jsRound ((evaluateGeoSignalsBiz html snapshot currentYear).rawScore * 100) 150)
      ∧ (evaluateGeoSignalsBiz html snapshot currentYear).score ≤ 100)
    ∧ ((evaluateGeoSignalsMed html snapshot currentYear).score
        = Nat.min 100 (jsRound ((evaluateGeoSignalsMed html snapshot currentYear).rawScore * 100) 150)
      ∧ (evaluateGeoSignalsMed html snapshot currentYear).score ≤ 100) := by
  refine ⟨⟨?_, ?_⟩, ⟨?_, ?_⟩, ?_, ?_⟩
  · rw [seo_score_eq html snapshot url]; exact clampTop _
  · rw [seo_score_eq html snapshot url, clampTop]; exact Nat.min_le_left _ _
  · rw [geoBiz_score_eq html snapshot currentYear]; exact clampTop _
  · rw [geoBiz_score_eq html snapshot currentYear, clampTop]; exact Nat.min_le_left _ _
  · rw [geoMed_score_eq html snapshot currentYear]; exact clampTop _
  · rw [geoMed_score_eq html snapshot currentYear, clampTop]; exact Nat.min_le_left _ _

/-- C9: the medical AI-readiness variant awards at most 4 + 4 = 8
`meta_optimization` points while still normalizing by 150, so its raw score
is at most 148 and its returned score is at most 99 — it can never be 100. -/
theorem medical_variant_score_capped (html : String) (snapshot : SnapshotData)
    (currentYear : Nat) :
    (evaluateGeoSignalsMed html snapshot currentYear).rawScore ≤ 148
    ∧ (evaluateGeoSignalsMed html snapshot currentYear).score ≤ 99 := by
  have hraw : (evaluateGeoSignalsMed html snapshot currentYear).rawScore ≤ 148 := by
    rw [geoMed_rawScore_eq html snapshot currentYear]
    have h0 := (convBlockMed_spec (wbTest false convAltsMed (joinLower (snapshot.h1Tags ++ snapshot.h2Tags))) snapshot.h1Tags.length).2.2
    have h1 := (structureBlockMed_spec snapshot.h2Tags.length).2.2
    have h2 := (depthBlockMed_spec snapshot.wordCount).2.2
    have h3 := (schemaBlockMed_spec (snapshot.schemaMarkup.any (fun b => schemaTypeTest schemaNamesMed b.data)) (decide (0 < snapshot.schemaMarkup.length))).2.2
    have h4 := (faqBlockMed_spec (snapshot.schemaMarkup.any (fun b => schemaTypeTest ["FAQPage".data] b.data)) ((snapshot.schemaMarkup.any (fun b => schemaTypeTest ["FAQPage".data] b.data)) || faqHeadingTest html.data || decide (3 ≤ questionCountOf html.data))).2.2
    have h5 := (voiceBlockMed_spec (questionCountOf html.data)).2.2
    have h6 := (authorityBlockMed_spec (hasHqCitations hqLitsMed html.data) (statTest statWordsMed html.data) (wbTest true citAltsMed html.data)).2.2
    have h7 := (perfBlockMed_spec snapshot.loadTime).2.2
    have h8 := (eeatBlockMed_spec ((if hasAuthorBylineMed html.data then 1 else 0) + (if medReviewTest html.data then 1 else 0))).2.2
    have h9 := (metaBlockMed_spec (decide (30 ≤ (snapshot.title.getD "").length ∧ (snapshot.title.getD "").length ≤ 60)) (decide (120 ≤ (snapshot.metaDescription.getD "").length ∧ (snapshot.metaDescription.getD "").length ≤ 160))).2.2
    have h10 := (imageGeoBlockMed_spec (countImgAlt html.data) (countImgTags html.data) (altCoverageDefault0 html)).2.2
    have h11 := (linksGeoBlockMed_spec (internalLinkCount html.data)).2.2
    have h12 := (fmtBlockMed_spec (hasTagOpen "<ol".data html.data || hasTagOpen "<ul".data html.data || hasTagOpen "<table".data html.data)).2.2
    have h13 := (freshBlockMed_spec (yearTest currentYear html.data)).2.2
    omega
  refine ⟨hraw, ?_⟩
  have hj : jsRound ((evaluateGeoSignalsMed html snapshot currentYear).rawScore * 100) 150 ≤ 99 := by
    unfold jsRound
    have h2 : 2 * ((evaluateGeoSignalsMed html snapshot currentYear).rawScore * 100) + 150 ≤ 29750 := by
      omega
    calc (2 * ((evaluateGeoSignalsMed html snapshot currentYear).rawScore * 100) + 150) / (2 * 150)
        ≤ 29750 / (2 * 150) := Nat.div_le_div_right h2
      _ = 99 := by norm_num
  rw [geoMed_score_eq html snapshot currentYear, clampTop]
  exact le_trans (Nat.min_le_right _ _) hj


theorem factorPoints_cons_ne {e : ScoreBreakdown} {t : List ScoreBreakdown} {name : String}
    (h : e.factor ≠ name) : factorPoints (e :: t) name = factorPoints t name := by
  simp [factorPoints, h]

theorem factorPoints_cons_eq {e : ScoreBreakdown} {t : List ScoreBreakdown} {name : String}
    (h : e.factor = name) : factorPoints (e :: t) name = some e.points := by
  simp [factorPoints, h]

theorem seo_factorPoints_meta (html : String) (snapshot : SnapshotData) (url : String) :
    factorPoints (evaluateSeoSignals html snapshot url).breakdown "meta_description"
      = some ((metaBlock (snapshot.metaDescription.getD "")).1) := by
  rw [seo_breakdown_eq html snapshot url,
      factorPoints_cons_ne (by rw [(titleBlock_spec _).2.1]; decide),
      factorPoints_cons_eq ((metaBlock_spec _).2.1),
      metaBlock_pts]

theorem seo_factorPoints_links (html : String) (snapshot : SnapshotData) (url : String) :
    factorPoints (evaluateSeoSignals html snapshot url).breakdown "internal_links"
      = some ((linksBlock (internalLinkCount html.data)).1) := by
  rw [seo_breakdown_eq html snapshot url,
      factorPoints_cons_ne (by rw [(titleBlock_spec _).2.1]; decide),
      factorPoints_cons_ne (by rw [(metaBlock_spec _).2.1]; decide),
      factorPoints_cons_ne (by rw [(headerBlock_spec _ _).2.1]; decide),
      factorPoints_cons_ne (by rw [(contentBlock_spec _).2.1]; decide),
      factorPoints_cons_ne (by rw [(structuredBlock_spec _).2.1]; decide),
      factorPoints_cons_ne (by rw [(canonicalBlock_spec _).2.1]; decide),
      factorPoints_cons_eq ((linksBlock_spec _).2.1),
      linksBlock_pts]

theorem seo_factorPoints_image (html : String) (snapshot : SnapshotData) (url : String) :
    factorPoints (evaluateSeoSignals html snapshot url).breakdown "image_optimization"
      = some ((imageBlock (countImgAlt html.data) (countImgTags html.data) (altCoverageDefault1 html)).1) := by
  rw [seo_breakdown_eq html snapshot url,
      factorPoints_cons_ne (by rw [(titleBlock_spec _).2.1]; decide),
      factorPoints_cons_ne (by rw [(metaBlock_spec _).2.1]; decide),
      factorPoints_cons_ne (by rw [(headerBlock_spec _ _).2.1]; decide),
      factorPoints_cons_ne (by rw [(contentBlock_spec _).2.1]; decide),
      factorPoints_cons_ne (by rw [(structuredBlock_spec _).2.1]; decide),
      factorPoints_cons_ne (by rw [(canonicalBlock_spec _).2.1]; decide),
      factorPoints_cons_ne (by rw [(linksBlock_spec _).2.1]; decide),
      factorPoints_cons_eq ((imageBlock_spec _ _ _).2.1),
      imageBlock_pts]

theorem geoBiz_factorPoints_authority (html : String) (snapshot : SnapshotData) (currentYear : Nat) :
    factorPoints (evaluateGeoSignalsBiz html snapshot currentYear).breakdown "authority_signals"
      = some ((authorityBlockBiz (hasHqCitations hqLitsBiz html.data) (statTest statWordsBiz html.data) (wbTest true citAltsBiz html.data)).1) := by
  rw [geoBiz_breakdown_eq html snapshot currentYear,
      factorPoints_cons_ne (by rw [(convBlockBiz_spec _ _).2.1]; decide),
      factorPoints_cons_ne (by rw [(structureBlockBiz_spec _).2.1]; decide),
      factorPoints_cons_ne (by rw [(depthBlockBiz_spec _).2.1]; decide),
      factorPoints_cons_ne (by rw [(schemaBlockBiz_spec _ _ _).2.1]; decide),
      factorPoints_cons_ne (by rw [(faqBlockBiz_spec _ _).2.1]; decide),
      factorPoints_cons_ne (by rw [(voiceBlockBiz_spec _).2.1]; decide),
      factorPoints_cons_eq ((authorityBlockBiz_spec _ _ _).2.1),
      authorityBlockBiz_pts]

theorem geoBiz_factorPoints_image (html : String) (snapshot : SnapshotData) (currentYear : Nat) :
    factorPoints (evaluateGeoSignalsBiz html snapshot currentYear).breakdown "image_optimization"
      = some ((imageGeoBlockBiz (countImgAlt html.data) (countImgTags html.data) (altCoverageDefault0 html)).1) := by
  rw [geoBiz_breakdown_eq html snapshot currentYear,
      factorPoints_cons_ne (by rw [(convBlockBiz_spec _ _).2.1]; decide),
      factorPoints_cons_ne (by rw [(structureBlockBiz_spec _).2.1]; decide),
      factorPoints_cons_ne (by rw [(depthBlockBiz_spec _).2.1]; decide),
      factorPoints_cons_ne (by rw [(schemaBlockBiz_spec _ _ _).2.1]; decide),
      factorPoints_cons_ne (by rw [(faqBlockBiz_spec _ _).2.1]; decide),
      factorPoints_cons_ne (by rw [(voiceBlockBiz_spec _).2.1]; decide),
      factorPoints_cons_ne (by rw [(authorityBlockBiz_spec _ _ _).2.1]; decide),
      factorPoints_cons_ne (by rw [(perfBlockBiz_spec _).2.1]; decide),
      factorPoints_cons_ne (by rw [(eeatBlockBiz_spec _).2.1]; decide),
      factorPoints_cons_ne (by rw [(metaBlockBiz_spec _ _).2.1]; decide),
      factorPoints_cons_eq ((imageGeoBlockBiz_spec _ _ _).2.1),
      imageGeoBlockBiz_pts]

theorem geoBiz_factorPoints_links (html : String) (snapshot : SnapshotData) (currentYear : Nat) :
    factorPoints (evaluateGeoSignalsBiz html snapshot currentYear).breakdown "internal_linking"
      = some ((linksGeoBlockBiz (internalLinkCount html.data)).1) := by
  rw [geoBiz_breakdown_eq html snapshot currentYear,
      factorPoints_cons_ne (by rw [(convBlockBiz_spec _ _).2.1]; decide),
      factorPoints_cons_ne (by rw [(structureBlockBiz_spec _).2.1]; decide),
      factorPoints_cons_ne (by rw [(depthBlockBiz_spec _).2.1]; decide),
      factorPoints_cons_ne (by rw [(schemaBlockBiz_spec _ _ _).2.1]; decide),
      factorPoints_cons_ne (by rw [(faqBlockBiz_spec _ _).2.1]; decide),
      factorPoints_cons_ne (by rw [(voiceBlockBiz_spec _).2.1]; decide),
      factorPoints_cons_ne (by rw [(authorityBlockBiz_spec _ _ _).2.1]; decide),
      factorPoints_cons_ne (by rw [(perfBlockBiz_spec _).2.1]; decide),
      factorPoints_cons_ne (by rw [(eeatBlockBiz_spec _).2.1]; decide),
      factorPoints_cons_ne (by rw [(metaBlockBiz_spec _ _).2.1]; decide),
      factorPoints_cons_ne (by rw [(imageGeoBlockBiz_spec _ _ _).2.1]; decide),
      factorPoints_cons_eq ((linksGeoBlockBiz_spec _).2.1),
      linksGeoBlockBiz_pts]

theorem geoMed_factorPoints_authority (html : String) (snapshot : SnapshotData) (currentYear : Nat) :
    factorPoints (evaluateGeoSignalsMed html snapshot currentYear).breakdown "authority_signals"
      = some ((authorityBlockMed (hasHqCitations hqLitsMed html.data) (statTest statWordsMed html.data) (wbTest true citAltsMed html.data)).1) := by
  rw [geoMed_breakdown_eq html snapshot currentYear,
      factorPoints_cons_ne (by rw [(convBlockMed_spec _ _).2.1]; decide),
      factorPoints_cons_ne (by rw [(structureBlockMed_spec _).2.1]; decide),
      factorPoints_cons_ne (by rw [(depthBlockMed_spec _).2.1]; decide),
      factorPoints_cons_ne (by rw [(schemaBlockMed_spec _ _).2.1]; decide),
      factorPoints_cons_ne (by rw [(faqBlockMed_spec _ _).2.1]; decide),
      factorPoints_cons_ne (by rw [(voiceBlockMed_spec _).2.1]; decide),
      factorPoints_cons_eq ((authorityBlockMed_spec _ _ _).2.1),
      authorityBlockMed_pts]

theorem geoMed_factorPoints_image (html : String) (snapshot : SnapshotData) (currentYear : Nat) :
    factorPoints (evaluateGeoSignalsMed html snapshot currentYear).breakdown "image_optimization"
      = some ((imageGeoBlockMed (countImgAlt html.data) (countImgTags html.data) (altCoverageDefault0 html)).1) := by
  rw [geoMed_breakdown_eq html snapshot currentYear,
      factorPoints_cons_ne (by rw [(convBlockMed_spec _ _).2.1]; decide),
      factorPoints_cons_ne (by rw [(structureBlockMed_spec _).2.1]; decide),
      factorPoints_cons_ne (by rw [(depthBlockMed_spec _).2.1]; decide),
      factorPoints_cons_ne (by rw [(schemaBlockMed_spec _ _).2.1]; decide),
      factorPoints_cons_ne (by rw [(faqBlockMed_spec _ _).2.1]; decide),
      factorPoints_cons_ne (by rw [(voiceBlockMed_spec _).2.1]; decide),
      factorPoints_cons_ne (by rw [(authorityBlockMed_spec _ _ _).2.1]; decide),
      factorPoints_cons_ne (by rw [(perfBlockMed_spec _).2.1]; decide),
      factorPoints_cons_ne (by rw [(eeatBlockMed_spec _).2.1]; decide),
      factorPoints_cons_ne (by rw [(metaBlockMed_spec _ _).2.1]; decide),
      factorPoints_cons_eq ((imageGeoBlockMed_spec _ _ _).2.1),
      imageGeoBlockMed_pts]

theorem geoMed_factorPoints_links (html : String) (snapshot : SnapshotData) (currentYear : Nat) :
    factorPoints (evaluateGeoSignalsMed html snapshot currentYear).breakdown "internal_linking"
      = some ((linksGeoBlockMed (internalLinkCount html.data)).1) := by
  rw [geoMed_breakdown_eq html snapshot currentYear,
      factorPoints_cons_ne (by rw [(convBlockMed_spec _ _).2.1]; decide),
      factorPoints_cons_ne (by rw [(structureBlockMed_spec _).2.1]; decide),
      factorPoints_cons_ne (by rw [(depthBlockMed_spec _).2.1]; decide),
      factorPoints_cons_ne (by rw [(schemaBlockMed_spec _ _).2.1]; decide),
      factorPoints_cons_ne (by rw [(faqBlockMed_spec _ _).2.1]; decide),
      factorPoints_cons_ne (by rw [(voiceBlockMed_spec _).2.1]; decide),
      factorPoints_cons_ne (by rw [(authorityBlockMed_spec _ _ _).2.1]; decide),
      factorPoints_cons_ne (by rw [(perfBlockMed_spec _).2.1]; decide),
      factorPoints_cons_ne (by rw [(eeatBlockMed_spec _).2.1]; decide),
      factorPoints_cons_ne (by rw [(metaBlockMed_spec _ _).2.1]; decide),
      factorPoints_cons_ne (by rw [(imageGeoBlockMed_spec _ _ _).2.1]; decide),
      factorPoints_cons_eq ((linksGeoBlockMed_spec _).2.1),
      linksGeoBlockMed_pts]

/-- A snapshot with every optional field absent, empty lists, zero word count
and zero load time. -/
def emptySnapshot : SnapshotData :=
  { url := "", title := none, metaDescription := none, canonicalUrl := none,
    langAttribute := none, h1Tags := [], h2Tags := [], schemaMarkup := [],
    loadTime := 0, statusCode := 200, pageSize := 0, wordCount := 0, analyzedAt := "" }

/-- C1 (amended): the Traditional `meta_description` factor awards 0 when the
description is absent, 15 for character lengths in [150,160], 12 for every
other present length of at least 120 — including every length greater than
160 — and 5 for present lengths below 120. -/
theorem meta_description_tiering (html : String) (snapshot : SnapshotData) (url : String) :
    factorPoints (evaluateSeoSignals html snapshot url).breakdown "meta_description"
      = some (if (snapshot.metaDescription.getD "").length = 0 then 0
        else if 150 ≤ (snapshot.metaDescription.getD "").length ∧
            (snapshot.metaDescription.getD "").length ≤ 160 then 15
        else if (120 ≤ (snapshot.metaDescription.getD "").length ∧
              (snapshot.metaDescription.getD "").length < 150)
            ∨ 160 < (snapshot.metaDescription.getD "").length then 12
        else 5) := by
  rw [seo_factorPoints_meta html snapshot url]
  congr 1
  simp only [metaBlock]
  split_ifs <;> first | rfl | (exfalso; omega)

/-- The snapshot of the C1 counterexample: a 170-character meta description. -/
def metaSnapC1 : SnapshotData :=
  { emptySnapshot with metaDescription := some (String.mk (List.replicate 170 'a')) }

set_option maxRecDepth 40000 in
/-- C1 counterexample: a present meta description of 170 characters — greater
than 160 — is awarded 12 points by the code, not the 5 the claim asserts for
lengths above 160. -/
theorem meta_description_claim_false :
    160 < (metaSnapC1.metaDescription.getD "").length ∧
    factorPoints (evaluateSeoSignals "" metaSnapC1 "").breakdown "meta_description"
      = some 12 ∧ (12 : Nat) ≠ 5 := by
  refine ⟨by decide, by decide, by decide⟩

/-- Formalisation of C2's claimed counting rule: anchors whose href VALUE
does not start with `http://` or `https://` (the code instead excludes every
anchor whose whole matched tag text CONTAINS either literal anywhere). -/
def specInternalLinkCount (s : List Char) : Nat :=
  ((anchorMatches s).filter
    (fun m => !isPref "http://".data m.2 && !isPref "https://".data m.2)).length

/-- The HTML of the C2 counterexample: three anchors with relative href
values that contain `https://` later in the attribute value. -/
def htmlC2 : String :=
  "<a href=\"/a?u=https://x\"><a href=\"/b?u=https://x\"><a href=\"/c?u=https://x\">"

/-- C2 counterexample: under the claim's counting rule the count is 3, which
would award the 6-point tier; the code's `includes`-based filter counts 0 and
awards the 2-point floor. -/
theorem internal_links_claim_false :
    specInternalLinkCount htmlC2.data = 3 ∧ internalLinkCount htmlC2.data = 0 ∧
    factorPoints (evaluateSeoSignals htmlC2 emptySnapshot "").breakdown "internal_links"
      = some 2 ∧ (2 : Nat) ≠ 6 := by
  refine ⟨by decide, by decide, by decide, by decide⟩

/-- C2 (amended): all three components use the same internal-link count — the
number of anchor-tag matches whose full matched tag text does not contain
`http://` or `https://` anywhere (so a relative href whose tag contains
`https://` elsewhere is treated as external) — with Traditional tiers
≥5→10, ≥3→6, else 2 (never 0) and AI-readiness tiers ≥10→5, ≥5→3, else 0. -/
theorem internal_links_tiering (html : String) (snapshot : SnapshotData) (url : String)
    (currentYear : Nat) :
    (factorPoints (evaluateSeoSignals html snapshot url).breakdown "internal_links"
      = some (if 5 ≤ internalLinkCount html.data then 10
              else if 3 ≤ internalLinkCount html.data then 6 else 2))
    ∧ (factorPoints (evaluateGeoSignalsBiz html snapshot currentYear).breakdown "internal_linking"
      = some (if 10 ≤ internalLinkCount html.data then 5
              else if 5 ≤ internalLinkCount html.data then 3 else 0))
    ∧ (factorPoints (evaluateGeoSignalsMed html snapshot currentYear).breakdown "internal_linking"
      = some (if 10 ≤ internalLinkCount html.data then 5
              else if 5 ≤ internalLinkCount html.data then 3 else 0)) := by
  refine ⟨?_, ?_, ?_⟩
  · rw [seo_factorPoints_links html snapshot url]
    congr 1
    simp only [linksBlock]
    split_ifs <;> rfl
  · rw [geoBiz_factorPoints_links html snapshot currentYear]
    congr 1
    simp only [linksGeoBlockBiz]
    split_ifs <;> rfl
  · rw [geoMed_factorPoints_links html snapshot currentYear]
    congr 1
    simp only [linksGeoBlockMed]
    split_ifs <;> rfl

/-- C3 (amended): the business variant awards 12 authority points for a
high-quality citation AND statistics, else 6 when citations OR statistics are
present, else 0; the medical variant awards 12 for the same conjunction but 6
only when the citation keywords match — statistics alone award 0 there. -/
theorem authority_signals_tiering (html : String) (snapshot : SnapshotData)
    (currentYear : Nat) :
    (factorPoints (evaluateGeoSignalsBiz html snapshot currentYear).breakdown "authority_signals"
      = some (if hasHqCitations hqLitsBiz html.data ∧ statTest statWordsBiz html.data then 12
              else if wbTest true citAltsBiz html.data ∨ statTest statWordsBiz html.data then 6
              else 0))
    ∧ (factorPoints (evaluateGeoSignalsMed html snapshot currentYear).breakdown "authority_signals"
      = some (if hasHqCitations hqLitsMed html.data ∧ statTest statWordsMed html.data then 12
              else if wbTest true citAltsMed html.data then 6
              else 0)) := by
  refine ⟨?_, ?_⟩
  · rw [geoBiz_factorPoints_authority html snapshot currentYear]
    congr 1
    simp only [authorityBlockBiz]
    split_ifs <;> rfl
  · rw [geoMed_factorPoints_authority html snapshot currentYear]
    congr 1
    simp only [authorityBlockMed]
    split_ifs <;> rfl

/-- C3 counterexample: a page whose HTML is just `50%` matches the medical
statistics pattern and none of the citation patterns, yet the medical variant
awards 0 authority points, not the claimed 6. -/
theorem authority_signals_claim_false :
    (evaluateGeoSignalsMed "50%" emptySnapshot 2025).hasStatistics = true ∧
    (evaluateGeoSignalsMed "50%" emptySnapshot 2025).hasCitations = false ∧
    factorPoints (evaluateGeoSignalsMed "50%" emptySnapshot 2025).breakdown "authority_signals"
      = some 0 ∧ (0 : Nat) ≠ 6 := by
  refine ⟨by decide, by decide, by decide, by decide⟩

theorem geoBiz_hasImageOpt_eq (html : String) (snapshot : SnapshotData) (currentYear : Nat) :
    (evaluateGeoSignalsBiz html snapshot currentYear).hasImageOptimization
      = (decide (0 < countImgTags html.data) && covGt (altCoverageDefault0 html) 0 1) := rfl

theorem geoMed_hasImageOpt_eq (html : String) (snapshot : SnapshotData) (currentYear : Nat) :
    (evaluateGeoSignalsMed html snapshot currentYear).hasImageOptimization
      = (decide (0 < countImgTags html.data) && covGt (altCoverageDefault0 html) 0 1) := rfl

/-- C6: on any HTML with zero `<img>` tag matches, the Traditional alt
coverage defaults to 1, awarding the full 10 `image_optimization` points,
while both AI-readiness variants default the coverage to 0, award 0 points,
and report `hasImageOptimization = false`. -/
theorem zero_images_asymmetry (html : String) (snapshot : SnapshotData) (url : String)
    (currentYear : Nat) (h : countImgTags html.data = 0) :
    factorPoints (evaluateSeoSignals html snapshot url).breakdown "image_optimization" = some 10
    ∧ factorPoints (evaluateGeoSignalsBiz html snapshot currentYear).breakdown "image_optimization"
        = some 0
    ∧ factorPoints (evaluateGeoSignalsMed html snapshot currentYear).breakdown "image_optimization"
        = some 0
    ∧ (evaluateGeoSignalsBiz html snapshot currentYear).hasImageOptimization = false
    ∧ (evaluateGeoSignalsMed html snapshot currentYear).hasImageOptimization = false := by
  have hc1 : altCoverageDefault1 html = (1, 1) := by simp [altCoverageDefault1, h]
  have hc0 : altCoverageDefault0 html = (0, 1) := by simp [altCoverageDefault0, h]
  refine ⟨?_, ?_, ?_, ?_, ?_⟩
  · rw [seo_factorPoints_image html snapshot url, hc1]
    norm_num [imageBlock, covGe]
  · rw [geoBiz_factorPoints_image html snapshot currentYear, hc0]
    norm_num [imageGeoBlockBiz, covGe]
  · rw [geoMed_factorPoints_image html snapshot currentYear, hc0]
    norm_num [imageGeoBlockMed, covGe]
  · rw [geoBiz_hasImageOpt_eq html snapshot currentYear, h]
    simp
  · rw [geoMed_hasImageOpt_eq html snapshot currentYear, h]
    simp

/-- Witness for C6 at the concrete empty document. -/
theorem zero_images_asymmetry_witness :
    countImgTags "".data = 0 ∧
    (factorPoints (evaluateSeoSignals "" emptySnapshot "").breakdown "image_optimization" = some 10
     ∧ factorPoints (evaluateGeoSignalsBiz "" emptySnapshot 2025).breakdown "image_optimization"
         = some 0
     ∧ factorPoints (evaluateGeoSignalsMed "" emptySnapshot 2025).breakdown "image_optimization"
         = some 0
     ∧ (evaluateGeoSignalsBiz "" emptySnapshot 2025).hasImageOptimization = false
     ∧ (evaluateGeoSignalsMed "" emptySnapshot 2025).hasImageOptimization = false) :=
  ⟨rfl, zero_images_asymmetry "" emptySnapshot "" 2025 rfl⟩

/-- C7 counterexample: on the empty document with zero load time, the
Traditional `image_optimization` factor awards 10 (zero-image coverage
default) and `page_speed` awards 7, and the AI-readiness `performance` factor
awards 5 (0 ms is the fastest tier) — none of these is 0 or one of the
claim's listed floor values. -/
theorem empty_document_claim_false :
    factorPoints (evaluateSeoSignals "" emptySnapshot "").breakdown "image_optimization"
      = some 10 ∧
    factorPoints (evaluateSeoSignals "" emptySnapshot "").breakdown "page_speed" = some 7 ∧
    factorPoints (evaluateGeoSignalsBiz "" emptySnapshot 2025).breakdown "performance"
      = some 5 ∧
    ¬ (10 = 0 ∨ 10 = 2) := by
  refine ⟨by decide, by decide, by decide, by decide⟩

/-- C7 (amended): on the empty document (no schema, no headings, absent
optional fields, zero word count, zero load time) every canonical factor
appears exactly once in each component's breakdown; the floored factors
award their floors (`voice_search`/`ai_search_ready` 2, Traditional
`internal_links` 2, `structure` 2), Traditional `image_optimization` awards
10 via the zero-image full-coverage default, Traditional `page_speed` awards
7 and the AI-readiness `performance` factor awards 5 because a zero load
time falls in the fastest tier, every other factor awards 0, and all
normalized scores are non-negative. -/
theorem empty_document_breakdowns (currentYear : Nat) :
    ((evaluateSeoSignals "" emptySnapshot "").breakdown.map (fun e => (e.factor, e.points))
      = [("title_tag", 0), ("meta_description", 0), ("header_tags", 0), ("content_quality", 0),
         ("structured_data", 0), ("canonical_tag", 0), ("internal_links", 2),
         ("image_optimization", 10), ("mobile_optimization", 0), ("https_security", 0),
         ("page_speed", 7), ("language_locale", 0)])
    ∧ ((evaluateGeoSignalsBiz "" emptySnapshot currentYear).breakdown.map
        (fun e => (e.factor, e.points))
      = [("conversational_headers", 0), ("structure", 2), ("content_depth", 0),
         ("structured_data", 0), ("faq_schema", 0), ("ai_search_ready", 2),
         ("authority_signals", 0), ("performance", 5), ("eeat_signals", 0),
         ("meta_optimization", 0), ("image_optimization", 0), ("internal_linking", 0),
         ("structured_formatting", 0), ("content_freshness", 0)])
    ∧ ((evaluateGeoSignalsMed "" emptySnapshot currentYear).breakdown.map
        (fun e => (e.factor, e.points))
      = [("conversational_headers", 0), ("structure", 2), ("content_depth", 0),
         ("structured_data", 0), ("faq_schema", 0), ("voice_search", 2),
         ("authority_signals", 0), ("performance", 5), ("eeat_signals", 0),
         ("meta_optimization", 0), ("image_optimization", 0), ("internal_linking", 0),
         ("structured_formatting", 0), ("content_freshness", 0)])
    ∧ 0 ≤ (evaluateSeoSignals "" emptySnapshot "").score
    ∧ 0 ≤ (evaluateGeoSignalsBiz "" emptySnapshot currentYear).score
    ∧ 0 ≤ (evaluateGeoSignalsMed "" emptySnapshot currentYear).score :=
  ⟨rfl, rfl, rfl, Nat.zero_le _, Nat.zero_le _, Nat.zero_le _⟩

/-! ## Breakdown ordering: general facts about `lastEntry` and the
canonical-order `filterMap` shared by the three ordering functions. -/

theorem lastEntry_foldl (l : List ScoreBreakdown) (name : String) (acc : Option ScoreBreakdown) :
    l.foldl (fun a e => if e.factor == name then some e else a) acc
      = (lastEntry l name).elim acc some := by
  induction l generalizing acc with
  | nil => rfl
  | cons e t ih =>
    show t.foldl _ (if e.factor == name then some e else acc) = _
    rw [ih]
    have hr : lastEntry (e :: t) name
        = t.foldl (fun a x => if x.factor == name then some x else a)
            (if e.factor == name then some e else none) := rfl
    rw [hr, ih]
    cases ht : lastEntry t name with
    | some x => rfl
    | none =>
      by_cases hc : (e.factor == name) = true
      · simp [hc]
      · simp [hc]

theorem lastEntry_cons (e : ScoreBreakdown) (t : List ScoreBreakdown) (name : String) :
    lastEntry (e :: t) name
      = (lastEntry t name).elim (if e.factor == name then some e else none) some := by
  show t.foldl _ (if e.factor == name then some e else none) = _
  exact lastEntry_foldl t name _

theorem lastEntry_factor {l : List ScoreBreakdown} {name : String} {e : ScoreBreakdown}
    (h : lastEntry l name = some e) : e.factor = name := by
  induction l with
  | nil => exact absurd h (by simp [lastEntry])
  | cons a t ih =>
    rw [lastEntry_cons] at h
    cases ht : lastEntry t name with
    | some x =>
      rw [ht] at h
      exact ih (ht.trans (Option.some_inj.mpr (Option.some_inj.mp h)))
    | none =>
      rw [ht] at h
      by_cases hc : (a.factor == name) = true
      · rw [if_pos hc] at h
        simp only [Option.elim] at h
        cases h
        exact eq_of_beq hc
      · rw [if_neg hc] at h
        simp at h

theorem lastEntry_isSome (l : List ScoreBreakdown) (name : String) :
    (lastEntry l name).isSome = l.any (fun e => e.factor == name) := by
  induction l with
  | nil => rfl
  | cons a t ih =>
    rw [lastEntry_cons, List.any_cons]
    cases ht : lastEntry t name with
    | some x =>
      have hta : t.any (fun e => e.factor == name) = true := by rw [← ih, ht]; rfl
      simp [hta]
    | none =>
      have hta : t.any (fun e => e.factor == name) = false := by rw [← ih, ht]; rfl
      by_cases hc : (a.factor == name) = true <;> simp [hc, hta]

theorem orderedBy_map_factor (names : List String) (l : List ScoreBreakdown) :
    (names.filterMap (lastEntry l)).map (fun e => e.factor)
      = names.filter (fun n => l.any (fun e => e.factor == n)) := by
  induction names with
  | nil => rfl
  | cons n ns ih =>
    rw [List.filterMap_cons, List.filter_cons]
    cases h : lastEntry l n with
    | none =>
      have ha : l.any (fun e => e.factor == n) = false := by rw [← lastEntry_isSome, h]; rfl
      simp [ha, ih]
    | some e =>
      have ha : l.any (fun e => e.factor == n) = true := by rw [← lastEntry_isSome, h]; rfl
      have hf : e.factor = n := lastEntry_factor h
      simp [ha, ih, hf]

theorem filterMap_congr_mem {α β : Type} {f g : α → Option β} :
    ∀ {l : List α}, (∀ a ∈ l, f a = g a) → l.filterMap f = l.filterMap g
  | [], _ => rfl
  | a :: t, h => by
    rw [List.filterMap_cons, List.filterMap_cons, h a (List.mem_cons_self a t),
        filterMap_congr_mem (fun x hx => h x (List.mem_cons_of_mem a hx))]

theorem lastEntry_orderedBy (names : List String) (l : List ScoreBreakdown) (n : String)
    (hnd : names.Nodup) :
    lastEntry (names.filterMap (lastEntry l)) n
      = if n ∈ names then lastEntry l n else none := by
  induction names with
  | nil => simp [lastEntry]
  | cons m ms ih =>
    have hm : m ∉ ms := (List.nodup_cons.mp hnd).1
    have hnd2 : ms.Nodup := (List.nodup_cons.mp hnd).2
    rw [List.filterMap_cons]
    cases h : lastEntry l m with
    | none =>
      rw [ih hnd2]
      by_cases hnm : n = m
      · subst hnm
        simp [hm, h]
      · simp [List.mem_cons, hnm]
    | some e =>
      have hf : e.factor = m := lastEntry_factor h
      rw [lastEntry_cons, ih hnd2]
      by_cases hnm : n = m
      · subst hnm
        have hne : (e.factor == n) = true := by rw [hf]; exact beq_self_eq_true n
        simp [hm, hne, h]
      · have hne : (e.factor == n) = false := by
          rw [hf]
          exact beq_eq_false_iff_ne.mpr (fun hh => hnm hh.symm)
        by_cases hn : n ∈ ms
        · cases hln : lastEntry l n with
          | some x => simp [hn, hln, List.mem_cons, hnm]
          | none => simp [hn, hln, List.mem_cons, hnm, hne]
        · simp [hn, List.mem_cons, hnm, hne]

theorem orderedBy_idem (names : List String) (hnd : names.Nodup) (l : List ScoreBreakdown) :
    names.filterMap (lastEntry (names.filterMap (lastEntry l)))
      = names.filterMap (lastEntry l) :=
  filterMap_congr_mem (fun n hn => by rw [lastEntry_orderedBy names l n hnd, if_pos hn])

theorem orderedBy_filter_name (names : List String) (l : List ScoreBreakdown) (n : String)
    (hnd : names.Nodup) :
    (names.filterMap (lastEntry l)).filter (fun e => e.factor == n)
      = (if n ∈ names then lastEntry l n else none).elim [] (fun e => [e]) := by
  induction names with
  | nil => simp
  | cons m ms ih =>
    have hm : m ∉ ms := (List.nodup_cons.mp hnd).1
    have hnd2 : ms.Nodup := (List.nodup_cons.mp hnd).2
    rw [List.filterMap_cons]
    cases h : lastEntry l m with
    | none =>
      rw [ih hnd2]
      by_cases hnm : n = m
      · subst hnm
        simp [hm, h]
      · simp [List.mem_cons, hnm]
    | some e =>
      have hf : e.factor = m := lastEntry_factor h
      rw [List.filter_cons, ih hnd2]
      by_cases hnm : n = m
      · subst hnm
        have hne : (e.factor == n) = true := by rw [hf]; exact beq_self_eq_true n
        simp [hm, hne, h]
      · have hne : (e.factor == n) = false := by
          rw [hf]
          exact beq_eq_false_iff_ne.mpr (fun hh => hnm hh.symm)
        simp [List.mem_cons, hnm, hne]

theorem lastEntry_eq_reverse_find (l : List ScoreBreakdown) (name : String) :
    lastEntry l name = l.reverse.find? (fun e => e.factor == name) := by
  induction l with
  | nil => rfl
  | cons a t ih =>
    rw [lastEntry_cons, List.reverse_cons, List.find?_append, ih]
    cases h : t.reverse.find? (fun e => e.factor == name) with
    | some x => rfl
    | none =>
      by_cases hc : (a.factor == name) = true
      · simp [List.find?, hc, Option.or]
      · simp [List.find?, hc, Option.or]

/-- C8: each ordering function is idempotent, and its output's factor-name
sequence is exactly the canonical order filtered to the names present in the
input — so it follows the canonical sequence, drops every non-canonical
entry, and never synthesizes an entry for a canonical name absent from the
input; the output's name set is the canonical list intersected with the
input's names. -/
theorem order_factors_canonical (l : List ScoreBreakdown) :
    (orderSeoBreakdown (orderSeoBreakdown l) = orderSeoBreakdown l
      ∧ (orderSeoBreakdown l).map (fun e => e.factor)
          = seoFactorOrder.filter (fun n => l.any (fun e => e.factor == n)))
    ∧ (orderBreakdownBiz (orderBreakdownBiz l) = orderBreakdownBiz l
      ∧ (orderBreakdownBiz l).map (fun e => e.factor)
          = geoFactorOrderBiz.filter (fun n => l.any (fun e => e.factor == n)))
    ∧ (orderBreakdownMed (orderBreakdownMed l) = orderBreakdownMed l
      ∧ (orderBreakdownMed l).map (fun e => e.factor)
          = geoFactorOrderMed.filter (fun n => l.any (fun e => e.factor == n))) :=
  ⟨⟨orderedBy_idem seoFactorOrder (by decide) l, orderedBy_map_factor seoFactorOrder l⟩,
   ⟨orderedBy_idem geoFactorOrderBiz (by decide) l, orderedBy_map_factor geoFactorOrderBiz l⟩,
   orderedBy_idem geoFactorOrderMed (by decide) l, orderedBy_map_factor geoFactorOrderMed l⟩

/-- C10 counterexample: a factor name outside the canonical list, duplicated
in the input, yields NO output entry at all — not "exactly one" as the claim
states for any duplicated name. -/
theorem order_factors_duplicate_claim_false :
    (([⟨"x", 1, "a"⟩, ⟨"x", 2, "b"⟩] : List ScoreBreakdown).filter
        (fun e => e.factor == "x")).length = 2
    ∧ orderSeoBreakdown [⟨"x", 1, "a"⟩, ⟨"x", 2, "b"⟩] = []
    ∧ orderBreakdownBiz [⟨"x", 1, "a"⟩, ⟨"x", 2, "b"⟩] = []
    ∧ orderBreakdownMed [⟨"x", 1, "a"⟩, ⟨"x", 2, "b"⟩] = [] := by
  refine ⟨by decide, by decide, by decide, by decide⟩

/-- C10 (amended): if the input to an ordering function contains two or more
entries sharing the same CANONICAL factor name, the output contains exactly
one entry for that name — the last occurrence in the input (a duplicated
non-canonical name instead produces no output entry), so the output can be
strictly shorter than the input even when every input name is canonical. -/
theorem order_factors_duplicate_last (l : List ScoreBreakdown) (n : String) :
    (n ∈ seoFactorOrder → 2 ≤ (l.filter (fun e => e.factor == n)).length →
      ∃ e, l.reverse.find? (fun x => x.factor == n) = some e ∧
        (orderSeoBreakdown l).filter (fun x => x.factor == n) = [e])
    ∧ (n ∈ geoFactorOrderBiz → 2 ≤ (l.filter (fun e => e.factor == n)).length →
      ∃ e, l.reverse.find? (fun x => x.factor == n) = some e ∧
        (orderBreakdownBiz l).filter (fun x => x.factor == n) = [e])
    ∧ (n ∈ geoFactorOrderMed → 2 ≤ (l.filter (fun e => e.factor == n)).length →
      ∃ e, l.reverse.find? (fun x => x.factor == n) = some e ∧
        (orderBreakdownMed l).filter (fun x => x.factor == n) = [e]) := by
  have main : ∀ (names : List String), names.Nodup → n ∈ names →
      2 ≤ (l.filter (fun e => e.factor == n)).length →
      ∃ e, l.reverse.find? (fun x => x.factor == n) = some e ∧
        (names.filterMap (lastEntry l)).filter (fun x => x.factor == n) = [e] := by
    intro names hnd hmem hlen
    have hpos : 0 < (l.filter (fun e => e.factor == n)).length := by omega
    have hany : l.any (fun e => e.factor == n) = true := by
      rw [List.any_eq_true]
      rcases List.exists_mem_of_length_pos hpos with ⟨x, hx⟩
      exact ⟨x, (List.mem_filter.mp hx).1, (List.mem_filter.mp hx).2⟩
    have hsome : (lastEntry l n).isSome = true := by rw [lastEntry_isSome, hany]
    rcases Option.isSome_iff_exists.mp hsome with ⟨e, he⟩
    refine ⟨e, ?_, ?_⟩
    · rw [← lastEntry_eq_reverse_find, he]
    · rw [orderedBy_filter_name names l n hnd, if_pos hmem, he]
      rfl
  exact ⟨fun hm hl => main seoFactorOrder (by decide) hm hl,
         fun hm hl => main geoFactorOrderBiz (by decide) hm hl,
         fun hm hl => main geoFactorOrderMed (by decide) hm hl⟩

/-- Witness for C10 at a concrete duplicated canonical name: the output keeps
only the second (last) `title_tag` entry and is strictly shorter than the
input. -/
theorem order_factors_duplicate_last_witness :
    (∃ e, ([⟨"title_tag", 1, "first"⟩, ⟨"title_tag", 2, "second"⟩] :
          List ScoreBreakdown).reverse.find? (fun x => x.factor == "title_tag") = some e ∧
        (orderSeoBreakdown [⟨"title_tag", 1, "first"⟩, ⟨"title_tag", 2, "second"⟩]).filter
          (fun x => x.factor == "title_tag") = [e])
    ∧ (orderSeoBreakdown [⟨"title_tag", 1, "first"⟩, ⟨"title_tag", 2, "second"⟩]).length
        < ([⟨"title_tag", 1, "first"⟩, ⟨"title_tag", 2, "second"⟩] :
            List ScoreBreakdown).length :=
  ⟨(order_factors_duplicate_last
      [⟨"title_tag", 1, "first"⟩, ⟨"title_tag", 2, "second"⟩] "title_tag").1
      (by decide) (by decide),
   by decide⟩

end SeoGeo
